import Mathlib

/-!
Signature injection engine: coordinate and interaction core.

A shallow embedding of the coordinate/interaction engine of `src/src/App.js`:
the pixel/normalized transform, field creation by drop, the drag and resize
handlers, pointer-up, field deletion and field updates, the serialization of the
field list, the busy flags of the upload and sign requests, and the component
`src/src/components/DraggableBox.js`.

Modelling conventions.

* JavaScript numbers are modelled by exact rationals `ℚ`; the constant `0.2`
  is the rational `1/5`.
* React state (`useState`) is an explicit record `AppState`; every handler is a
  function from the state seen by the handler to the state after all of its
  `setX` calls have been applied.  A functional update `setFields(prev => ...)`
  is applied to the field list produced by the updates queued before it.
* A handler that can raise a JavaScript exception returns `Except JsError`.
* Values the handler reads from its environment (the event's pointer position,
  the container's bounding box, the freshly generated id) are parameters.
* An asynchronous handler is the list of its effects in program order, given the
  settled value of each promise it awaits; the state after it is the fold of these
  effects.
-/

namespace SignatureEngine

/-- The state `pagePixelSize`: `{ width, height }`, initially `(0,0)`. -/
structure PagePixelSize where
  width : ℚ
  height : ℚ
deriving DecidableEq, Repr

/-- The object `{ xRel, yRel, wRel, hRel }` stored in `field.coordinate`. -/
structure NormalizedRect where
  xRel : ℚ
  yRel : ℚ
  wRel : ℚ
  hRel : ℚ
deriving DecidableEq, Repr

/-- The object `{ left, top, width, height }` returned by `computePixelsFromNormalized`. -/
structure PixelRect where
  left : ℚ
  top : ℚ
  width : ℚ
  height : ℚ
deriving DecidableEq, Repr

/-- A field entity, as built in `handleDropField`. -/
structure Field where
  id : String
  type : String
  pageIndex : ℤ
  coordinate : NormalizedRect
  value : String
  checked : Bool
deriving DecidableEq, Repr

/-- The object stored by `setDragState` in `handleFieldMouseDown`. -/
structure DragState where
  fieldId : String
  startX : ℚ
  startY : ℚ
  initialLeft : ℚ
  initialTop : ℚ
deriving DecidableEq, Repr

/-- The object stored by `setResizeState` in `handleResizeMouseDown`. -/
structure ResizeState where
  fieldId : String
  startX : ℚ
  startY : ℚ
  initialWidth : ℚ
  initialHeight : ℚ
  initialLeft : ℚ
  initialTop : ℚ
deriving DecidableEq, Repr

/-- The part of a mouse or drag event the handlers read: `e.clientX`, `e.clientY`. -/
structure MouseEvent where
  clientX : ℚ
  clientY : ℚ
deriving DecidableEq, Repr

/-- The result of `getBoundingClientRect()` on the page container. -/
structure DOMRect where
  left : ℚ
  top : ℚ
  width : ℚ
  height : ℚ
deriving DecidableEq, Repr

/-- The React state of `App` that the coordinate/interaction engine reads and writes. -/
structure AppState where
  fields : List Field
  selectedFieldId : Option String
  pagePixelSize : PagePixelSize
  currentPage : ℤ
  dragState : Option DragState
  resizeState : Option ResizeState
deriving DecidableEq, Repr

/-- A JavaScript exception raised by a handler. -/
inductive JsError where
  | typeError
deriving DecidableEq, Repr

/-- The initial values given to `useState` in `App`. -/
def initialState : AppState :=
  { fields := []
    selectedFieldId := none
    pagePixelSize := { width := 0, height := 0 }
    currentPage := 1
    dragState := none
    resizeState := none }

/-- Source `computeNormalizedFromPixels` (App.js 73-80); `none` is the returned `null`. -/
def computeNormalizedFromPixels (pagePixelSize : PagePixelSize)
    (left top width height : ℚ) : Option NormalizedRect :=
  if pagePixelSize.width = 0 ∨ pagePixelSize.height = 0 then none
  else
    let xRel := left / pagePixelSize.width
    let yRel := top / pagePixelSize.height
    let wRel := width / pagePixelSize.width
    let hRel := height / pagePixelSize.height
    some { xRel := xRel, yRel := yRel, wRel := wRel, hRel := hRel }

/-- Source `computePixelsFromNormalized` (App.js 82-89); `none` is the returned `null`. -/
def computePixelsFromNormalized (pagePixelSize : PagePixelSize)
    (coordinate : NormalizedRect) : Option PixelRect :=
  if pagePixelSize.width = 0 ∨ pagePixelSize.height = 0 then none
  else
    let left := coordinate.xRel * pagePixelSize.width
    let top := coordinate.yRel * pagePixelSize.height
    let width := coordinate.wRel * pagePixelSize.width
    let height := coordinate.hRel * pagePixelSize.height
    some { left := left, top := top, width := width, height := height }

/-- Source `handlePageRenderSuccess` (App.js 66-71); `rect` is the bounding box of
`pageContainerRef.current`, `none` when the ref is not attached. -/
def handlePageRenderSuccess (rect : Option DOMRect) (s : AppState) : AppState :=
  match rect with
  | none => s
  | some r => { s with pagePixelSize := { width := r.width - 24, height := r.height - 24 } }

/-- Source `handleDropField` (App.js 109-133).  `overlayRect` is the container's
bounding box and `id` the string produced by `Date.now()` and `Math.random()`. -/
def handleDropField (e : MouseEvent) (overlayRect : DOMRect) (id : String)
    (fieldType : String) (s : AppState) : Except JsError AppState :=
  if s.pagePixelSize.width = 0 ∨ s.pagePixelSize.height = 0 then .ok s
  else
    let leftPx := e.clientX - overlayRect.left - 12
    let topPx := e.clientY - overlayRect.top - 12
    let defaultWidth := s.pagePixelSize.width * (2 / 10)
    let defaultHeight : ℚ := 40
    match computeNormalizedFromPixels s.pagePixelSize
        (leftPx - defaultWidth / 2) (topPx - defaultHeight / 2) defaultWidth defaultHeight with
    | none => .ok s
    | some normalized =>
      let newField : Field :=
        { id := id
          type := fieldType
          pageIndex := s.currentPage - 1
          coordinate := normalized
          value := ""
          checked := false }
      .ok { s with fields := s.fields ++ [newField], selectedFieldId := some id }

/-- Source `handleFieldMouseDown` (App.js 155-171). -/
def handleFieldMouseDown (e : MouseEvent) (fieldId : String) (s : AppState) :
    Except JsError AppState :=
  match s.fields.find? (fun f => decide (f.id = fieldId)) with
  | none => .ok s
  | some field =>
    match computePixelsFromNormalized s.pagePixelSize field.coordinate with
    | none => .ok s
    | some px =>
      let startX := e.clientX
      let startY := e.clientY
      .ok { s with
            dragState := some
              { fieldId := fieldId
                startX := startX
                startY := startY
                initialLeft := px.left
                initialTop := px.top }
            selectedFieldId := some fieldId }

/-- Source `handleResizeMouseDown` (App.js 173-188). -/
def handleResizeMouseDown (e : MouseEvent) (fieldId : String) (s : AppState) :
    Except JsError AppState :=
  match s.fields.find? (fun f => decide (f.id = fieldId)) with
  | none => .ok s
  | some field =>
    match computePixelsFromNormalized s.pagePixelSize field.coordinate with
    | none => .ok s
    | some px =>
      .ok { s with
            resizeState := some
              { fieldId := fieldId
                startX := e.clientX
                startY := e.clientY
                initialWidth := px.width
                initialHeight := px.height
                initialLeft := px.left
                initialTop := px.top } }

/-- The updater `prev => prev.map(f => f.id === fieldId ? { ...f, coordinate: normalized } : f)`
passed to `setFields` in both branches of `handleMouseMove`. -/
def writeCoordinate (fieldId : String) (normalized : NormalizedRect)
    (prev : List Field) : List Field :=
  prev.map (fun f => if f.id = fieldId then { f with coordinate := normalized } else f)

/-- The expression `computePixelsFromNormalized(fields.find(f => f.id === fieldId).coordinate)`
of the drag branch: reading `.coordinate` of `undefined`, or a property of `null`,
raises a `TypeError`. -/
def pixelsOfField (s : AppState) (fieldId : String) : Except JsError PixelRect :=
  match s.fields.find? (fun f => decide (f.id = fieldId)) with
  | none => .error JsError.typeError
  | some field =>
    match computePixelsFromNormalized s.pagePixelSize field.coordinate with
    | none => .error JsError.typeError
    | some px => .ok px

/-- The `if (dragState)` block of `handleMouseMove` (App.js 193-212).  The result is
the field list after the block's `setFields`, or `none` when the block executes
`return`, or an error when the block raises. -/
def dragBranch (e : MouseEvent) (s : AppState) : Except JsError (Option (List Field)) :=
  match s.dragState with
  | none => .ok (some s.fields)
  | some dragState =>
    let dx := e.clientX - dragState.startX
    let dy := e.clientY - dragState.startY
    let newLeft := dragState.initialLeft + dx
    let newTop := dragState.initialTop + dy
    match pixelsOfField s dragState.fieldId with
    | .error err => .error err
    | .ok pxw =>
      match pixelsOfField s dragState.fieldId with
      | .error err => .error err
      | .ok pxh =>
        let width := pxw.width
        let height := pxh.height
        match computeNormalizedFromPixels s.pagePixelSize newLeft newTop width height with
        | none => .ok none
        | some normalized => .ok (some (writeCoordinate dragState.fieldId normalized s.fields))

/-- The `if (resizeState)` block of `handleMouseMove` (App.js 214-231), applied to the
field list `prev` left by the drag block.  `none` when the block executes `return`. -/
def resizeBranch (e : MouseEvent) (s : AppState) (prev : List Field) : Option (List Field) :=
  match s.resizeState with
  | none => some prev
  | some resizeState =>
    let dx := e.clientX - resizeState.startX
    let dy := e.clientY - resizeState.startY
    let newWidth := max 30 (resizeState.initialWidth + dx)
    let newHeight := max 20 (resizeState.initialHeight + dy)
    match computeNormalizedFromPixels s.pagePixelSize
        resizeState.initialLeft resizeState.initialTop newWidth newHeight with
    | none => none
    | some normalized => some (writeCoordinate resizeState.fieldId normalized prev)

/-- Source `handleMouseMove` (App.js 190-232).  A `return` inside a block ends the handler;
the `setFields` queued before it still takes effect. -/
def handleMouseMove (e : MouseEvent) (s : AppState) : Except JsError AppState :=
  if s.pagePixelSize.width = 0 ∨ s.pagePixelSize.height = 0 then .ok s
  else
    match dragBranch e s with
    | .error err => .error err
    | .ok none => .ok s
    | .ok (some fields1) =>
      match resizeBranch e s fields1 with
      | none => .ok { s with fields := fields1 }
      | some fields2 => .ok { s with fields := fields2 }

/-- Source `handleMouseUp` (App.js 234-237). -/
def handleMouseUp (s : AppState) : Except JsError AppState :=
  let s1 := if s.dragState.isSome then { s with dragState := none } else s
  let s2 := if s.resizeState.isSome then { s1 with resizeState := none } else s1
  .ok s2

/-- Source `deleteField` (App.js 335-340). -/
def deleteField (id : String) (s : AppState) : Except JsError AppState :=
  let fields := s.fields.filter (fun f => decide (f.id ≠ id))
  if s.selectedFieldId = some id then
    .ok { s with fields := fields, selectedFieldId := none }
  else
    .ok { s with fields := fields }

/-- The user and renderer events that reach the handlers above. -/
inductive Event where
  | pageRenderSuccess (rect : Option DOMRect)
  | dropField (e : MouseEvent) (overlayRect : DOMRect) (id : String) (fieldType : String)
  | fieldMouseDown (e : MouseEvent) (fieldId : String)
  | resizeMouseDown (e : MouseEvent) (fieldId : String)
  | mouseMove (e : MouseEvent)
  | mouseUp
  | deleteField (id : String)

/-- Dispatch of one event to its handler. -/
def step (s : AppState) : Event → Except JsError AppState
  | .pageRenderSuccess rect => .ok (handlePageRenderSuccess rect s)
  | .dropField e overlayRect id fieldType => handleDropField e overlayRect id fieldType s
  | .fieldMouseDown e fieldId => handleFieldMouseDown e fieldId s
  | .resizeMouseDown e fieldId => handleResizeMouseDown e fieldId s
  | .mouseMove e => handleMouseMove e s
  | .mouseUp => handleMouseUp s
  | .deleteField id => deleteField id s

/-- The state after a sequence of events, stopping at the first exception. -/
def run (s : AppState) : List Event → Except JsError AppState
  | [] => .ok s
  | ev :: evs =>
    match step s ev with
    | .error err => .error err
    | .ok s1 => run s1 evs

/-- The listener `handleResize` installed on the window by `useEffect` (App.js 343-348);
`rect` is the bounding box of `pageContainerRef.current`, `none` when the ref is not
attached. -/
def handleResize (rect : Option DOMRect) (s : AppState) : AppState :=
  match rect with
  | none => s
  | some r => { s with pagePixelSize := { width := r.width - 24, height := r.height - 24 } }

/-- Source `updateFieldValue` (App.js 278-282). -/
def updateFieldValue (id : String) (value : String) (s : AppState) : AppState :=
  { s with fields := s.fields.map (fun f => if f.id = id then { f with value := value } else f) }

/-- Source `updateFieldChecked` (App.js 284-288). -/
def updateFieldChecked (id : String) (checked : Bool) (s : AppState) : AppState :=
  { s with
    fields := s.fields.map (fun f => if f.id = id then { f with checked := checked } else f) }

/-! ### Serialization and the two network requests -/

/-- One entry of `payloadFields`, the object literal of App.js 308-317. -/
structure PayloadField where
  type : String
  pageIndex : ℤ
  xRel : ℚ
  yRel : ℚ
  wRel : ℚ
  hRel : ℚ
  value : String
  checked : Bool
deriving DecidableEq, Repr

/-- The expression `v || ""` on a string: the empty string is falsy. -/
def orEmpty (v : String) : String :=
  if v = "" then "" else v

/-- The expression `!!b` on a boolean. -/
def notNot (b : Bool) : Bool :=
  !(!b)

/-- The constant `payloadFields` of `handleSignDocument` (App.js 308-317). -/
def payloadFields (fields : List Field) : List PayloadField :=
  fields.map (fun f =>
    { type := f.type
      pageIndex := f.pageIndex
      xRel := f.coordinate.xRel
      yRel := f.coordinate.yRel
      wRel := f.coordinate.wRel
      hRel := f.coordinate.hRel
      value := orEmpty f.value
      checked := notNot f.checked })

/-- The state `pdfMeta`: `{ pdfId, url }`, both initially `null`. -/
structure PdfMeta where
  pdfId : Option String
  url : Option String
deriving DecidableEq, Repr

/-- The state of `App` around the interaction core: the upload and sign requests read
and write `pdfMeta`, `signatureFile` and the two busy flags. -/
structure ShellState where
  core : AppState
  pdfMeta : PdfMeta
  signatureFile : Option String
  isSigning : Bool
  isLoadingPdf : Bool
  numPages : Option ℕ
deriving DecidableEq, Repr

/-- The initial values given to `useState` in `App`, busy flags included. -/
def initialShell : ShellState :=
  { core := initialState
    pdfMeta := { pdfId := none, url := none }
    signatureFile := none
    isSigning := false
    isLoadingPdf := false
    numPages := none }

/-- The settled value of an awaited promise. -/
inductive Settled (α : Type) where
  | rejected
  | resolved (value : α)
deriving DecidableEq, Repr

/-- The body `res.data` of a successful upload response: `{ pdfId, pdfUrl }`. -/
structure UploadData where
  pdfId : String
  pdfUrl : String
deriving DecidableEq, Repr

/-- The body `res.data` of a successful sign response: `{ signedPdfUrl }`. -/
structure SignData where
  signedPdfUrl : String
deriving DecidableEq, Repr

/-- What an asynchronous handler does, in program order: state setters, the requests
it dispatches and its calls to the browser. -/
inductive Effect where
  | setIsLoadingPdf (b : Bool)
  | setIsSigning (b : Bool)
  | setPdfMeta (m : PdfMeta)
  | setFields (fields : List Field)
  | setCurrentPage (p : ℤ)
  | postUploadPdf (file : String)
  | readSignatureFile (file : String)
  | postSignPdf (pdfId : String) (signatureImageBase64 : String) (fields : List PayloadField)
  | windowOpen (url : String)
  | alert (msg : String)
  | consoleError
deriving DecidableEq, Repr

/-- The effect of one step of a handler on the state. -/
def applyEffect (s : ShellState) : Effect → ShellState
  | .setIsLoadingPdf b => { s with isLoadingPdf := b }
  | .setIsSigning b => { s with isSigning := b }
  | .setPdfMeta m => { s with pdfMeta := m }
  | .setFields fields => { s with core := { s.core with fields := fields } }
  | .setCurrentPage p => { s with core := { s.core with currentPage := p } }
  | .postUploadPdf _ => s
  | .readSignatureFile _ => s
  | .postSignPdf _ _ _ => s
  | .windowOpen _ => s
  | .alert _ => s
  | .consoleError => s

/-- The state after all steps of a handler, in order. -/
def applyEffects (s : ShellState) (effects : List Effect) : ShellState :=
  effects.foldl applyEffect s

/-- The constant `BACKEND_BASE_URL` (App.js 32). -/
def BACKEND_BASE_URL : String :=
  "https://signature-injection-engine-backend-iosb.onrender.com"

/-- Source `handleDocumentLoadSuccess` (App.js 61-64). -/
def handleDocumentLoadSuccess (numPages : ℕ) (s : ShellState) : ShellState :=
  { s with numPages := some numPages, isLoadingPdf := false }

/-- The `catch` block of `handlePdfFileChange` (App.js 271-275). -/
def uploadCatch : List Effect :=
  [Effect.consoleError, Effect.alert "Failed to upload PDF", Effect.setIsLoadingPdf false]

/-- Source `handlePdfFileChange` (App.js 254-276).  `file` is `e.target.files[0]`, `none`
when no file was chosen; `response` is the settled upload request, whose body `res.data`
may be missing, in which case the destructuring raises inside the `try`. -/
def handlePdfFileChange (file : Option String)
    (response : Settled (Option UploadData)) : List Effect :=
  match file with
  | none => []
  | some f =>
    [Effect.setIsLoadingPdf true, Effect.postUploadPdf f] ++
      (match response with
       | .rejected => uploadCatch
       | .resolved none => uploadCatch
       | .resolved (some data) =>
         [ Effect.setPdfMeta
             { pdfId := some data.pdfId, url := some (BACKEND_BASE_URL ++ data.pdfUrl) },
           Effect.setFields [],
           Effect.setCurrentPage 1 ])

/-- The `catch` and `finally` blocks of `handleSignDocument` (App.js 327-332). -/
def signCatchFinally : List Effect :=
  [Effect.consoleError, Effect.alert "Failed to sign PDF", Effect.setIsSigning false]

/-- Source `handleSignDocument` (App.js 290-333).  `base64` is the settled
`fileToBase64(signatureFile)` and `response` the settled sign request, whose body
`res.data` may be missing.  Every exit of the `try` runs the `finally` block. -/
def handleSignDocument (s : ShellState) (base64 : Settled String)
    (response : Settled (Option SignData)) : List Effect :=
  match s.pdfMeta.pdfId with
  | none => [Effect.alert "Upload a PDF first", Effect.setIsSigning false]
  | some pdfId =>
    if pdfId = "" then [Effect.alert "Upload a PDF first", Effect.setIsSigning false]
    else
      match s.signatureFile with
      | none => [Effect.alert "Upload a signature image first", Effect.setIsSigning false]
      | some signatureFile =>
        let hasSignatureField := s.core.fields.any (fun f => decide (f.type = "signature"))
        if !hasSignatureField then
          [Effect.alert "Place at least one signature field on the PDF",
           Effect.setIsSigning false]
        else
          [Effect.setIsSigning true, Effect.readSignatureFile signatureFile] ++
            (match base64 with
             | .rejected => signCatchFinally
             | .resolved b64 =>
               Effect.postSignPdf pdfId b64 (payloadFields s.core.fields) ::
                 (match response with
                  | .rejected => signCatchFinally
                  | .resolved none => signCatchFinally
                  | .resolved (some data) =>
                    [ Effect.windowOpen (BACKEND_BASE_URL ++ data.signedPdfUrl),
                      Effect.setIsSigning false ]))

/-! ### The component `DraggableBox` (src/src/components/DraggableBox.js) -/

/-- The state `start` of `DraggableBox`: `{ x, y }`. -/
structure BoxStart where
  x : ℚ
  y : ℚ
deriving DecidableEq, Repr

/-- The state `pos` of `DraggableBox`: `{ left, top }`. -/
structure BoxPos where
  left : ℚ
  top : ℚ
deriving DecidableEq, Repr

/-- The three `useState` cells of `DraggableBox`. -/
structure BoxState where
  dragging : Bool
  start : BoxStart
  pos : BoxPos
deriving DecidableEq, Repr

/-- The initial values given to `useState` in `DraggableBox` for props `left`, `top`. -/
def initialBox (left top : ℚ) : BoxState :=
  { dragging := false, start := { x := 0, y := 0 }, pos := { left := left, top := top } }

/-- The effect `setPos({ left, top })` run when the props `left`, `top` change
(DraggableBox.js 9-11). -/
def syncProps (left top : ℚ) (s : BoxState) : BoxState :=
  { s with pos := { left := left, top := top } }

/-- Source `handlePointerDown` (DraggableBox.js 13-17). -/
def handlePointerDown (e : MouseEvent) (s : BoxState) : BoxState :=
  { s with
    dragging := true
    start := { x := e.clientX - s.pos.left, y := e.clientY - s.pos.top } }

/-- Source `handlePointerMove` (DraggableBox.js 19-25); the second component is the
call `onMove(newLeft, newTop)`, `none` when `onMove` is not called. -/
def handlePointerMove (e : MouseEvent) (s : BoxState) : BoxState × Option BoxPos :=
  if !s.dragging then (s, none)
  else
    let newLeft := e.clientX - s.start.x
    let newTop := e.clientY - s.start.y
    ({ s with pos := { left := newLeft, top := newTop } },
     some { left := newLeft, top := newTop })

/-- Source `handlePointerUp` (DraggableBox.js 27-29). -/
def handlePointerUp (s : BoxState) : BoxState :=
  { s with dragging := false }

/-- What can happen to a box between pointer-down and pointer-up: a pointer move, or
a change of the props `left`, `top`. -/
inductive BoxEvent where
  | pointerMove (e : MouseEvent)
  | propsChanged (left top : ℚ)
deriving DecidableEq, Repr

/-- The state after a sequence of box events, with the `onMove` calls made, in order. -/
def boxRun (s : BoxState) : List BoxEvent → BoxState × List BoxPos
  | [] => (s, [])
  | .pointerMove e :: evs =>
    let r := handlePointerMove e s
    let rest := boxRun r.1 evs
    (rest.1, r.2.toList ++ rest.2)
  | .propsChanged left top :: evs => boxRun (syncProps left top s) evs

/-! ### Frame of a coordinate write-back -/

/-- The field ids the recorded drag and resize sessions refer to. -/
def sessionIds (s : AppState) : List String :=
  (s.dragState.map (fun d => d.fieldId)).toList ++ (s.resizeState.map (fun r => r.fieldId)).toList

/-- Field `g` is field `f` with at most its coordinate replaced, and is `f` itself when
the id of `f` is not among `ids`. -/
def coordinateOnly (ids : List String) (f g : Field) : Prop :=
  g = { f with coordinate := g.coordinate } ∧ (f.id ∉ ids → g = f)

instance (ids : List String) (f g : Field) : Decidable (coordinateOnly ids f g) := by
  unfold coordinateOnly
  infer_instance

/-! ## Sample states -/

/-- A text field with id `a` at normalized (0.1, 0.1) of size (0.2, 0.1). -/
def sampleFieldA : Field :=
  { id := "a", type := "text", pageIndex := 0,
    coordinate := { xRel := 1 / 10, yRel := 1 / 10, wRel := 2 / 10, hRel := 1 / 10 },
    value := "", checked := false }

/-- A signature field with id `b` at normalized (0.5, 0.5) of size (0.2, 0.04). -/
def sampleFieldB : Field :=
  { id := "b", type := "signature", pageIndex := 0,
    coordinate := { xRel := 5 / 10, yRel := 5 / 10, wRel := 2 / 10, hRel := 4 / 100 },
    value := "", checked := false }

/-- The page size is still unknown, field `a` exists and a drag on it is recorded. -/
def unknownPageDragging : AppState :=
  { initialState with
    fields := [sampleFieldA]
    dragState := some { fieldId := "a", startX := 5, startY := 5,
                        initialLeft := 80, initialTop := 100 } }

/-- Page size (800,1000) with the fields `a` and `b`, no session, nothing selected. -/
def twoFieldsIdle : AppState :=
  { initialState with
    pagePixelSize := { width := 800, height := 1000 }
    fields := [sampleFieldA, sampleFieldB] }

/-- The container box used in the sample runs: top-left (100,50), size 824 by 1024. -/
def sampleContainer : DOMRect :=
  { left := 100, top := 50, width := 824, height := 1024 }

/-- A run from the initial state: the page renders, fields `a` and `b` are dropped,
then the pointer goes down on the body of `a`. -/
def draggingATrace : List Event :=
  [ Event.pageRenderSuccess (some sampleContainer),
    Event.dropField { clientX := 272, clientY := 212 } sampleContainer "a" "text",
    Event.dropField { clientX := 592, clientY := 582 } sampleContainer "b" "signature",
    Event.fieldMouseDown { clientX := 200, clientY := 170 } "a" ]

/-- The state reached by `draggingATrace`: a drag session on `a`, which is selected. -/
def draggingA : AppState :=
  { fields :=
      [ { id := "a", type := "text", pageIndex := 0,
          coordinate := { xRel := 1 / 10, yRel := 13 / 100, wRel := 1 / 5, hRel := 1 / 25 },
          value := "", checked := false },
        { id := "b", type := "signature", pageIndex := 0,
          coordinate := { xRel := 1 / 2, yRel := 1 / 2, wRel := 1 / 5, hRel := 1 / 25 },
          value := "", checked := false } ]
    selectedFieldId := some "a"
    pagePixelSize := { width := 800, height := 1000 }
    currentPage := 1
    dragState := some { fieldId := "a", startX := 200, startY := 170,
                        initialLeft := 80, initialTop := 130 }
    resizeState := none }

/-- A run from the initial state: the page renders, field `a` is dropped, the pointer
goes down on its resize handle, and `a` is deleted while the session is recorded. -/
def staleResizeTrace : List Event :=
  [ Event.pageRenderSuccess (some sampleContainer),
    Event.dropField { clientX := 272, clientY := 212 } sampleContainer "a" "text",
    Event.resizeMouseDown { clientX := 240, clientY := 150 } "a",
    Event.deleteField "a" ]

/-- The state reached by `staleResizeTrace`: a resize session on the deleted `a`. -/
def staleResizing : AppState :=
  { fields := []
    selectedFieldId := none
    pagePixelSize := { width := 800, height := 1000 }
    currentPage := 1
    dragState := none
    resizeState := some { fieldId := "a", startX := 240, startY := 150,
                          initialWidth := 160, initialHeight := 40,
                          initialLeft := 80, initialTop := 130 } }

/-- A run from the initial state: the page renders, field `a` is dropped, the pointer
goes down on its body, and `a` is deleted while the session is recorded. -/
def staleDragTrace : List Event :=
  [ Event.pageRenderSuccess (some sampleContainer),
    Event.dropField { clientX := 272, clientY := 212 } sampleContainer "a" "text",
    Event.fieldMouseDown { clientX := 200, clientY := 170 } "a",
    Event.deleteField "a" ]

/-- The state reached by `staleDragTrace`: a drag session on the deleted `a`. -/
def staleDragging : AppState :=
  { fields := []
    selectedFieldId := none
    pagePixelSize := { width := 800, height := 1000 }
    currentPage := 1
    dragState := some { fieldId := "a", startX := 200, startY := 170,
                        initialLeft := 80, initialTop := 130 }
    resizeState := none }

/-- A document `p1` is uploaded, a signature image is chosen, and the fields `a`
(text) and `b` (signature) are placed: every guard of the sign handler passes. -/
def readyToSign : ShellState :=
  { initialShell with
    core := twoFieldsIdle
    pdfMeta := { pdfId := some "p1", url := some (BACKEND_BASE_URL ++ "/uploads/p1.pdf") }
    signatureFile := some "signature.png" }

/-- The state after a pointer-down at (240,200) on the resize handle of `a` in
`twoFieldsIdle`: a resize session on `a`. -/
def resizingA : AppState :=
  { twoFieldsIdle with
    resizeState := some { fieldId := "a", startX := 240, startY := 200,
                          initialWidth := 160, initialHeight := 100,
                          initialLeft := 80, initialTop := 100 } }

/-- The state after a pointer-down at (560,540) on the resize handle of `b` in
`twoFieldsIdle`: a resize session on `b`. -/
def resizingB : AppState :=
  { twoFieldsIdle with
    resizeState := some { fieldId := "b", startX := 560, startY := 540,
                          initialWidth := 160, initialHeight := 40,
                          initialLeft := 400, initialTop := 500 } }

/-! ## Lemmas on the handlers -/

theorem computePixels_of_ne_zero (p : PagePixelSize) (c : NormalizedRect)
    (hW : p.width ≠ 0) (hH : p.height ≠ 0) :
    computePixelsFromNormalized p c
      = some { left := c.xRel * p.width, top := c.yRel * p.height,
               width := c.wRel * p.width, height := c.hRel * p.height } := by
  simp only [computePixelsFromNormalized, hW, hH, or_self, if_false]

theorem computeNormalized_of_ne_zero (p : PagePixelSize) (left top width height : ℚ)
    (hW : p.width ≠ 0) (hH : p.height ≠ 0) :
    computeNormalizedFromPixels p left top width height
      = some { xRel := left / p.width, yRel := top / p.height,
               wRel := width / p.width, hRel := height / p.height } := by
  simp only [computeNormalizedFromPixels, hW, hH, or_self, if_false]

/-- After `writeCoordinate`, the first field with the written id is the old first
field with that id, carrying the new coordinate. -/
theorem find_writeCoordinate (fieldId : String) (n : NormalizedRect) (l : List Field) :
    (writeCoordinate fieldId n l).find? (fun f => decide (f.id = fieldId))
      = (l.find? (fun f => decide (f.id = fieldId))).map
          (fun f => { f with coordinate := n }) := by
  induction l with
  | nil => rfl
  | cons a t ih =>
    unfold writeCoordinate at ih ⊢
    by_cases h : a.id = fieldId
    · simp [List.find?, h]
    · simp only [List.map_cons, h, if_false, List.find?, decide_False]
      exact ih

/-- One pointer move while only a drag session is active, on a field that exists. -/
theorem handleMouseMove_dragging (s : AppState) (d : DragState) (f : Field) (e : MouseEvent)
    (hW : s.pagePixelSize.width ≠ 0) (hH : s.pagePixelSize.height ≠ 0)
    (hd : s.dragState = some d) (hr : s.resizeState = none)
    (hf : s.fields.find? (fun g => decide (g.id = d.fieldId)) = some f) :
    handleMouseMove e s
      = .ok { s with
              fields := writeCoordinate d.fieldId
                { xRel := (d.initialLeft + (e.clientX - d.startX)) / s.pagePixelSize.width
                  yRel := (d.initialTop + (e.clientY - d.startY)) / s.pagePixelSize.height
                  wRel := f.coordinate.wRel
                  hRel := f.coordinate.hRel } s.fields } := by
  have hw : f.coordinate.wRel * s.pagePixelSize.width / s.pagePixelSize.width
      = f.coordinate.wRel := by field_simp
  have hh : f.coordinate.hRel * s.pagePixelSize.height / s.pagePixelSize.height
      = f.coordinate.hRel := by field_simp
  simp only [handleMouseMove, dragBranch, resizeBranch, pixelsOfField, hd, hr, hf,
    computePixels_of_ne_zero _ _ hW hH, computeNormalized_of_ne_zero _ _ _ _ _ hW hH,
    hW, hH, or_self, if_false, hw, hh]

/-- One pointer move while only a resize session is active. -/
theorem handleMouseMove_resizing (s : AppState) (r : ResizeState) (e : MouseEvent)
    (hW : s.pagePixelSize.width ≠ 0) (hH : s.pagePixelSize.height ≠ 0)
    (hd : s.dragState = none) (hr : s.resizeState = some r) :
    handleMouseMove e s
      = .ok { s with
              fields := writeCoordinate r.fieldId
                { xRel := r.initialLeft / s.pagePixelSize.width
                  yRel := r.initialTop / s.pagePixelSize.height
                  wRel := max 30 (r.initialWidth + (e.clientX - r.startX))
                            / s.pagePixelSize.width
                  hRel := max 20 (r.initialHeight + (e.clientY - r.startY))
                            / s.pagePixelSize.height } s.fields } := by
  simp only [handleMouseMove, dragBranch, resizeBranch, hd, hr,
    computeNormalized_of_ne_zero _ _ _ _ _ hW hH, hW, hH, or_self, if_false]

/-- Any number of pointer moves while only a drag session is active on an existing
field: every move returns normally and the page size, both sessions, the selection
and the relative size of the dragged field are preserved. -/
theorem run_moves_dragging (d : DragState) (w h : ℚ) (moves : List MouseEvent) :
    ∀ s : AppState,
      s.pagePixelSize.width ≠ 0 → s.pagePixelSize.height ≠ 0 →
      s.dragState = some d → s.resizeState = none →
      (∃ f, s.fields.find? (fun g => decide (g.id = d.fieldId)) = some f
          ∧ f.coordinate.wRel = w ∧ f.coordinate.hRel = h) →
      ∃ s1, run s (moves.map Event.mouseMove) = .ok s1
        ∧ s1.pagePixelSize = s.pagePixelSize
        ∧ s1.dragState = some d ∧ s1.resizeState = none
        ∧ s1.selectedFieldId = s.selectedFieldId
        ∧ (∃ f, s1.fields.find? (fun g => decide (g.id = d.fieldId)) = some f
            ∧ f.coordinate.wRel = w ∧ f.coordinate.hRel = h) := by
  induction moves with
  | nil =>
    intro s _ _ hd hr hf
    exact ⟨s, rfl, rfl, hd, hr, rfl, hf⟩
  | cons e t ih =>
    intro s hW hH hd hr hf
    obtain ⟨f, hfind, hfw, hfh⟩ := hf
    obtain ⟨s0, hstep, hp0, hd0, hr0, hsel0, hfl0⟩ :
        ∃ s0, handleMouseMove e s = .ok s0 ∧ s0.pagePixelSize = s.pagePixelSize
          ∧ s0.dragState = s.dragState ∧ s0.resizeState = s.resizeState
          ∧ s0.selectedFieldId = s.selectedFieldId
          ∧ s0.fields = writeCoordinate d.fieldId
              { xRel := (d.initialLeft + (e.clientX - d.startX)) / s.pagePixelSize.width
                yRel := (d.initialTop + (e.clientY - d.startY)) / s.pagePixelSize.height
                wRel := f.coordinate.wRel
                hRel := f.coordinate.hRel } s.fields :=
      ⟨_, handleMouseMove_dragging s d f e hW hH hd hr hfind, rfl, rfl, rfl, rfl, rfl⟩
    have hf0 : ∃ g, s0.fields.find? (fun g => decide (g.id = d.fieldId)) = some g
        ∧ g.coordinate.wRel = w ∧ g.coordinate.hRel = h := by
      rw [hfl0, find_writeCoordinate, hfind]
      exact ⟨_, rfl, hfw, hfh⟩
    obtain ⟨s1, hrun, hp, hd1, hr1, hsel, hf1⟩ :=
      ih s0 (by rw [hp0]; exact hW) (by rw [hp0]; exact hH) (by rw [hd0]; exact hd)
        (by rw [hr0]; exact hr) hf0
    refine ⟨s1, ?_, hp.trans hp0, hd1, hr1, hsel.trans hsel0, hf1⟩
    simp only [List.map_cons, run, step, hstep]
    exact hrun

/-- Any number of pointer moves while only a resize session is active: every move
returns normally and the page size, both sessions, the selection and the existence
of the resized field are preserved. -/
theorem run_moves_resizing (r : ResizeState) (moves : List MouseEvent) :
    ∀ s : AppState,
      s.pagePixelSize.width ≠ 0 → s.pagePixelSize.height ≠ 0 →
      s.dragState = none → s.resizeState = some r →
      (∃ f, s.fields.find? (fun g => decide (g.id = r.fieldId)) = some f) →
      ∃ s1, run s (moves.map Event.mouseMove) = .ok s1
        ∧ s1.pagePixelSize = s.pagePixelSize
        ∧ s1.dragState = none ∧ s1.resizeState = some r
        ∧ s1.selectedFieldId = s.selectedFieldId
        ∧ (∃ f, s1.fields.find? (fun g => decide (g.id = r.fieldId)) = some f) := by
  induction moves with
  | nil =>
    intro s _ _ hd hr hf
    exact ⟨s, rfl, rfl, hd, hr, rfl, hf⟩
  | cons e t ih =>
    intro s hW hH hd hr hf
    obtain ⟨f, hfind⟩ := hf
    obtain ⟨s0, hstep, hp0, hd0, hr0, hsel0, hfl0⟩ :
        ∃ s0, handleMouseMove e s = .ok s0 ∧ s0.pagePixelSize = s.pagePixelSize
          ∧ s0.dragState = s.dragState ∧ s0.resizeState = s.resizeState
          ∧ s0.selectedFieldId = s.selectedFieldId
          ∧ s0.fields = writeCoordinate r.fieldId
              { xRel := r.initialLeft / s.pagePixelSize.width
                yRel := r.initialTop / s.pagePixelSize.height
                wRel := max 30 (r.initialWidth + (e.clientX - r.startX))
                          / s.pagePixelSize.width
                hRel := max 20 (r.initialHeight + (e.clientY - r.startY))
                          / s.pagePixelSize.height } s.fields :=
      ⟨_, handleMouseMove_resizing s r e hW hH hd hr, rfl, rfl, rfl, rfl, rfl⟩
    have hf0 : ∃ g, s0.fields.find? (fun g => decide (g.id = r.fieldId)) = some g := by
      rw [hfl0, find_writeCoordinate, hfind]
      exact ⟨_, rfl⟩
    obtain ⟨s1, hrun, hp, hd1, hr1, hsel, hf1⟩ :=
      ih s0 (by rw [hp0]; exact hW) (by rw [hp0]; exact hH) (by rw [hd0]; exact hd)
        (by rw [hr0]; exact hr) hf0
    refine ⟨s1, ?_, hp.trans hp0, hd1, hr1, hsel.trans hsel0, hf1⟩
    simp only [List.map_cons, run, step, hstep]
    exact hrun

/-- Pointer up empties both sessions and changes nothing else. -/
theorem handleMouseUp_eq (s : AppState) :
    handleMouseUp s = .ok { s with dragState := none, resizeState := none } := by
  obtain ⟨fields, sel, pps, page, d, r⟩ := s
  cases d <;> cases r <;> rfl

/-- Writing a coordinate under an id that no field carries changes nothing. -/
theorem writeCoordinate_of_absent (fieldId : String) (n : NormalizedRect) (l : List Field)
    (h : ∀ f ∈ l, f.id ≠ fieldId) : writeCoordinate fieldId n l = l := by
  induction l with
  | nil => rfl
  | cons a t ih =>
    have ha : a.id ≠ fieldId := h a (List.mem_cons_self a t)
    have ht : ∀ f ∈ t, f.id ≠ fieldId := fun f hf => h f (List.mem_cons_of_mem a hf)
    unfold writeCoordinate at ih ⊢
    simp only [List.map_cons, ha, if_false, ih ht]

/-- A drop with both page dimensions non-zero, with the created field spelled out as
the handler computes it. -/
theorem handleDropField_of_ne_zero (s : AppState) (e : MouseEvent) (overlayRect : DOMRect)
    (id fieldType : String)
    (hW : s.pagePixelSize.width ≠ 0) (hH : s.pagePixelSize.height ≠ 0) :
    handleDropField e overlayRect id fieldType s
      = .ok { s with
              fields := s.fields ++
                [{ id := id, type := fieldType, pageIndex := s.currentPage - 1,
                   coordinate :=
                     { xRel := (e.clientX - overlayRect.left - 12
                                  - s.pagePixelSize.width * (2 / 10) / 2)
                                 / s.pagePixelSize.width
                       yRel := (e.clientY - overlayRect.top - 12 - 40 / 2)
                                 / s.pagePixelSize.height
                       wRel := s.pagePixelSize.width * (2 / 10) / s.pagePixelSize.width
                       hRel := 40 / s.pagePixelSize.height }
                   value := "", checked := false }]
              selectedFieldId := some id } := by
  simp only [handleDropField, computeNormalizedFromPixels, hW, hH, or_self, if_false]

/-- While the box is dragging, box events keep it dragging with the same `start`,
and each pointer move calls `onMove` with the pointer position minus `start`. -/
theorem boxRun_dragging (evs : List BoxEvent) :
    ∀ s : BoxState, s.dragging = true →
      (boxRun s evs).1.dragging = true
      ∧ (boxRun s evs).1.start = s.start
      ∧ (boxRun s evs).2
          = evs.filterMap (fun ev =>
              match ev with
              | .pointerMove e =>
                some { left := e.clientX - s.start.x, top := e.clientY - s.start.y }
              | .propsChanged _ _ => none) := by
  induction evs with
  | nil =>
    intro s hs
    exact ⟨hs, rfl, rfl⟩
  | cons ev t ih =>
    intro s hs
    cases ev with
    | pointerMove e =>
      have hstep : handlePointerMove e s
          = ({ s with pos := { left := e.clientX - s.start.x, top := e.clientY - s.start.y } },
             some { left := e.clientX - s.start.x, top := e.clientY - s.start.y }) := by
        simp [handlePointerMove, hs]
      obtain ⟨h1, h2, h3⟩ :=
        ih { s with pos := { left := e.clientX - s.start.x, top := e.clientY - s.start.y } } hs
      simp only [boxRun, hstep, List.filterMap_cons]
      exact ⟨h1, h2, by rw [h3]; rfl⟩
    | propsChanged left top =>
      obtain ⟨h1, h2, h3⟩ := ih (syncProps left top s) hs
      simp only [boxRun, List.filterMap_cons]
      exact ⟨h1, h2, h3⟩

theorem coordinateOnly_refl (ids : List String) (f : Field) : coordinateOnly ids f f :=
  ⟨rfl, fun _ => rfl⟩

theorem coordinateOnly_trans (ids : List String) (f g k : Field)
    (h1 : coordinateOnly ids f g) (h2 : coordinateOnly ids g k) : coordinateOnly ids f k := by
  obtain ⟨hg, hgf⟩ := h1
  obtain ⟨hk, hkg⟩ := h2
  constructor
  · rw [hk, hg]
  · intro hn
    have hgeq : g = f := hgf hn
    have hgn : g.id ∉ ids := by rw [hgeq]; exact hn
    rw [hkg hgn, hgeq]

/-- The function mapped by `writeCoordinate` replaces only the coordinate, and only of
fields with the written id. -/
theorem coordinateOnly_write (ids : List String) (id : String) (n : NormalizedRect)
    (hmem : id ∈ ids) (f : Field) :
    coordinateOnly ids f (if f.id = id then { f with coordinate := n } else f) := by
  by_cases hf : f.id = id
  · rw [if_pos hf]
    exact ⟨rfl, fun hn => absurd (hf ▸ hmem) hn⟩
  · rw [if_neg hf]
    exact coordinateOnly_refl ids f

/-- A successful pointer move maps a function over the field list that replaces at most
the coordinate, and only of fields a recorded session refers to; nothing else in the
state changes. -/
theorem handleMouseMove_frame (e : MouseEvent) (s s1 : AppState)
    (h : handleMouseMove e s = .ok s1) :
    ∃ u : Field → Field, s1 = { s with fields := s.fields.map u }
      ∧ ∀ f, coordinateOnly (sessionIds s) f (u f) := by
  by_cases h0 : s.pagePixelSize.width = 0 ∨ s.pagePixelSize.height = 0
  · refine ⟨fun f => f, ?_, coordinateOnly_refl _⟩
    unfold handleMouseMove at h
    rw [if_pos h0] at h
    cases h
    simp
  · obtain ⟨hW, hH⟩ := not_or.mp h0
    rcases Option.eq_none_or_eq_some s.dragState with hd | ⟨d, hd⟩ <;>
      rcases Option.eq_none_or_eq_some s.resizeState with hr | ⟨r, hr⟩
    · refine ⟨fun f => f, ?_, coordinateOnly_refl _⟩
      simp only [handleMouseMove, dragBranch, resizeBranch, hd, hr, hW, hH, or_self,
        if_false, Except.ok.injEq] at h
      rw [← h]
      simp
      exact ⟨hd.symm, hr.symm⟩
    · rw [handleMouseMove_resizing s r e hW hH hd hr] at h
      cases h
      exact ⟨_, rfl, coordinateOnly_write _ _ _ (by simp [sessionIds, hr])⟩
    · rcases Option.eq_none_or_eq_some
          (s.fields.find? (fun g => decide (g.id = d.fieldId))) with hfind | ⟨fd, hfind⟩
      · simp [handleMouseMove, dragBranch, pixelsOfField, hd, hfind, hW, hH] at h
      · rw [handleMouseMove_dragging s d fd e hW hH hd hr hfind] at h
        cases h
        exact ⟨_, rfl, coordinateOnly_write _ _ _ (by simp [sessionIds, hd])⟩
    · rcases Option.eq_none_or_eq_some
          (s.fields.find? (fun g => decide (g.id = d.fieldId))) with hfind | ⟨fd, hfind⟩
      · simp [handleMouseMove, dragBranch, pixelsOfField, hd, hfind, hW, hH] at h
      · simp only [handleMouseMove, dragBranch, resizeBranch, pixelsOfField, hd, hr, hfind,
          computePixels_of_ne_zero _ _ hW hH, computeNormalized_of_ne_zero _ _ _ _ _ hW hH,
          hW, hH, or_self, if_false, Except.ok.injEq, writeCoordinate, List.map_map] at h
        rw [← hd, ← hr] at h
        refine ⟨_, h.symm, ?_⟩
        intro f
        exact coordinateOnly_trans _ _ _ _
          (coordinateOnly_write _ d.fieldId _ (by simp [sessionIds, hd]) f)
          (coordinateOnly_write _ r.fieldId _ (by simp [sessionIds, hr]) _)

/-- A list mapped by `u` is related to the original, position by position, by any
relation that `u` satisfies on every element. -/
theorem forall₂_map_of_forall {R : Field → Field → Prop} (u : Field → Field)
    (l : List Field) (h : ∀ f, R f (u f)) : List.Forall₂ R l (l.map u) :=
  List.forall₂_map_right_iff.mpr (List.forall₂_same.mpr (fun f _ => h f))

/-- Mapping a function that fixes every element of the list fixes the list. -/
theorem map_eq_self_of_forall (u : Field → Field) (l : List Field)
    (h : ∀ f ∈ l, u f = f) : l.map u = l := by
  induction l with
  | nil => rfl
  | cons a t ih =>
    rw [List.map_cons, h a (List.mem_cons_self a t),
      ih (fun f hf => h f (List.mem_cons_of_mem a hf))]

/-- The three shapes of a run of `handleSignDocument`: a guard exit, a failed read of
the signature file, or a dispatched request followed by the failure or the success
tail. -/
theorem handleSignDocument_shape (s : ShellState) (base64 : Settled String)
    (response : Settled (Option SignData)) :
    (∃ msg, handleSignDocument s base64 response
        = [Effect.alert msg, Effect.setIsSigning false])
    ∨ (∃ sig, handleSignDocument s base64 response
        = [Effect.setIsSigning true, Effect.readSignatureFile sig] ++ signCatchFinally)
    ∨ (∃ sig pdfId b64 tail, handleSignDocument s base64 response
          = [Effect.setIsSigning true, Effect.readSignatureFile sig,
             Effect.postSignPdf pdfId b64 (payloadFields s.core.fields)] ++ tail
        ∧ (tail = signCatchFinally
            ∨ ∃ url, tail = [Effect.windowOpen url, Effect.setIsSigning false])) := by
  unfold handleSignDocument
  rcases s.pdfMeta.pdfId with _ | pdfId
  · exact Or.inl ⟨_, rfl⟩
  · by_cases hne : pdfId = ""
    · simp only [hne, if_true]
      exact Or.inl ⟨_, rfl⟩
    · simp only [hne, if_false]
      rcases s.signatureFile with _ | sig
      · exact Or.inl ⟨_, rfl⟩
      · by_cases hany : s.core.fields.any (fun f => decide (f.type = "signature")) = true
        · simp only [hany, Bool.not_true, Bool.false_eq_true, if_false]
          rcases base64 with _ | b
          · exact Or.inr (Or.inl ⟨sig, rfl⟩)
          · rcases response with _ | (_ | d)
            · exact Or.inr (Or.inr ⟨sig, pdfId, b, _, rfl, Or.inl rfl⟩)
            · exact Or.inr (Or.inr ⟨sig, pdfId, b, _, rfl, Or.inl rfl⟩)
            · exact Or.inr (Or.inr ⟨sig, pdfId, b, _, rfl, Or.inr ⟨_, rfl⟩⟩)
        · simp only [Bool.not_eq_true] at hany
          simp only [hany, Bool.not_false, if_true]
          exact Or.inl ⟨_, rfl⟩

/-- Writing a coordinate under one id does not change which field is found first
under a different id, nor that field. -/
theorem find_writeCoordinate_ne (written fieldId : String) (n : NormalizedRect)
    (l : List Field) (hne : written ≠ fieldId) :
    (writeCoordinate written n l).find? (fun f => decide (f.id = fieldId))
      = l.find? (fun f => decide (f.id = fieldId)) := by
  induction l with
  | nil => rfl
  | cons a t ih =>
    unfold writeCoordinate at ih ⊢
    by_cases hw : a.id = written
    · have ha : a.id ≠ fieldId := by rw [hw]; exact hne
      simp only [List.map_cons, hw, if_true, List.find?, ha, decide_False]
      have ha2 : written ≠ fieldId := hne
      simp only [ha2, decide_False]
      exact ih
    · rw [List.map_cons, if_neg hw]
      by_cases ha : a.id = fieldId
      · simp only [List.find?, ha, decide_True]
      · simp only [List.find?, ha, decide_False]
        exact ih

/-- One pointer move while a drag session is recorded on an existing field and no
resize session is recorded on that field: the move returns normally, keeps the page
size, both sessions and the selection, and writes the dragged field's coordinate. -/
theorem handleMouseMove_dragging_other (s : AppState) (d : DragState) (f : Field)
    (e : MouseEvent)
    (hW : s.pagePixelSize.width ≠ 0) (hH : s.pagePixelSize.height ≠ 0)
    (hd : s.dragState = some d)
    (hr : ∀ r, s.resizeState = some r → r.fieldId ≠ d.fieldId)
    (hf : s.fields.find? (fun g => decide (g.id = d.fieldId)) = some f) :
    ∃ s1, handleMouseMove e s = .ok s1
      ∧ s1.pagePixelSize = s.pagePixelSize
      ∧ s1.dragState = s.dragState ∧ s1.resizeState = s.resizeState
      ∧ s1.selectedFieldId = s.selectedFieldId
      ∧ s1.fields.find? (fun g => decide (g.id = d.fieldId))
          = some { f with
                   coordinate :=
                     { xRel := (d.initialLeft + (e.clientX - d.startX))
                                 / s.pagePixelSize.width
                       yRel := (d.initialTop + (e.clientY - d.startY))
                                 / s.pagePixelSize.height
                       wRel := f.coordinate.wRel
                       hRel := f.coordinate.hRel } } := by
  rcases Option.eq_none_or_eq_some s.resizeState with hnone | ⟨r, hsome⟩
  · refine ⟨_, handleMouseMove_dragging s d f e hW hH hd hnone hf, rfl, rfl, rfl, rfl, ?_⟩
    show (writeCoordinate d.fieldId _ s.fields).find? _ = _
    rw [find_writeCoordinate, hf]
    rfl
  · have hw : f.coordinate.wRel * s.pagePixelSize.width / s.pagePixelSize.width
        = f.coordinate.wRel := by field_simp
    have hh : f.coordinate.hRel * s.pagePixelSize.height / s.pagePixelSize.height
        = f.coordinate.hRel := by field_simp
    have hmove : handleMouseMove e s
        = .ok { s with
                fields := writeCoordinate r.fieldId
                  { xRel := r.initialLeft / s.pagePixelSize.width
                    yRel := r.initialTop / s.pagePixelSize.height
                    wRel := max 30 (r.initialWidth + (e.clientX - r.startX))
                              / s.pagePixelSize.width
                    hRel := max 20 (r.initialHeight + (e.clientY - r.startY))
                              / s.pagePixelSize.height }
                  (writeCoordinate d.fieldId
                    { xRel := (d.initialLeft + (e.clientX - d.startX))
                                / s.pagePixelSize.width
                      yRel := (d.initialTop + (e.clientY - d.startY))
                                / s.pagePixelSize.height
                      wRel := f.coordinate.wRel
                      hRel := f.coordinate.hRel } s.fields) } := by
      simp only [handleMouseMove, dragBranch, resizeBranch, pixelsOfField, hd, hsome, hf,
        computePixels_of_ne_zero _ _ hW hH, computeNormalized_of_ne_zero _ _ _ _ _ hW hH,
        hW, hH, or_self, if_false, hw, hh]
    refine ⟨_, hmove, rfl, rfl, rfl, rfl, ?_⟩
    show (writeCoordinate r.fieldId _ (writeCoordinate d.fieldId _ s.fields)).find? _ = _
    rw [find_writeCoordinate_ne _ _ _ _ (hr r hsome), find_writeCoordinate, hf]
    rfl

/-- Any number of pointer moves while a drag session is recorded on an existing field
and no resize session is recorded on that field: every move returns normally and the
page size, both sessions, the selection and the relative size of the dragged field are
preserved. -/
theorem run_moves_dragging_other (d : DragState) (w h : ℚ) (moves : List MouseEvent) :
    ∀ s : AppState,
      s.pagePixelSize.width ≠ 0 → s.pagePixelSize.height ≠ 0 →
      s.dragState = some d →
      (∀ r, s.resizeState = some r → r.fieldId ≠ d.fieldId) →
      (∃ f, s.fields.find? (fun g => decide (g.id = d.fieldId)) = some f
          ∧ f.coordinate.wRel = w ∧ f.coordinate.hRel = h) →
      ∃ s1, run s (moves.map Event.mouseMove) = .ok s1
        ∧ s1.pagePixelSize = s.pagePixelSize
        ∧ s1.dragState = some d ∧ s1.resizeState = s.resizeState
        ∧ s1.selectedFieldId = s.selectedFieldId
        ∧ (∃ f, s1.fields.find? (fun g => decide (g.id = d.fieldId)) = some f
            ∧ f.coordinate.wRel = w ∧ f.coordinate.hRel = h) := by
  induction moves with
  | nil =>
    intro s _ _ hd _ hf
    exact ⟨s, rfl, rfl, hd, rfl, rfl, hf⟩
  | cons e t ih =>
    intro s hW hH hd hr hf
    obtain ⟨f, hfind, hfw, hfh⟩ := hf
    obtain ⟨s0, hstep, hp0, hd0, hr0, hsel0, hfind0⟩ :=
      handleMouseMove_dragging_other s d f e hW hH hd hr hfind
    obtain ⟨s1, hrun, hp, hd1, hr1, hsel, hf1⟩ :=
      ih s0 (by rw [hp0]; exact hW) (by rw [hp0]; exact hH) (by rw [hd0]; exact hd)
        (by rw [hr0]; exact hr) ⟨_, hfind0, hfw, hfh⟩
    refine ⟨s1, ?_, hp.trans hp0, hd1, hr1.trans hr0, hsel.trans hsel0, hf1⟩
    simp only [List.map_cons, run, step, hstep]
    exact hrun

/-! ## Theorems -/

/-- C1. Round trip: with both page dimensions positive, converting a pixel rect to
normalized coordinates and back returns a result, and that result is the rect. -/
theorem C1_round_trip (p : PagePixelSize) (left top width height : ℚ)
    (hW : 0 < p.width) (hH : 0 < p.height) :
    (computeNormalizedFromPixels p left top width height).bind (computePixelsFromNormalized p)
      = some { left := left, top := top, width := width, height := height } := by
  have hw : p.width ≠ 0 := ne_of_gt hW
  have hh : p.height ≠ 0 := ne_of_gt hH
  simp [computeNormalizedFromPixels, computePixelsFromNormalized, hw, hh]

/-- C1 at page size (800,1000) and pixel rect (320,480,160,40). -/
theorem C1_round_trip_witness :
    (computeNormalizedFromPixels { width := 800, height := 1000 } 320 480 160 40).bind
        (computePixelsFromNormalized { width := 800, height := 1000 })
      = some { left := 320, top := 480, width := 160, height := 40 } :=
  C1_round_trip { width := 800, height := 1000 } 320 480 160 40 (by norm_num) (by norm_num)

/-- C2. Both transforms return `null` exactly when a page dimension is zero, and
otherwise the component-wise quotient (respectively product) by the page dimensions.
A result is produced, hence a division performed, only when both divisors are
non-zero. -/
theorem C2_transform_cases (p : PagePixelSize) (left top width height : ℚ)
    (c : NormalizedRect) :
    computeNormalizedFromPixels p left top width height
        = (if p.width = 0 ∨ p.height = 0 then none
           else some { xRel := left / p.width, yRel := top / p.height,
                       wRel := width / p.width, hRel := height / p.height })
    ∧ computePixelsFromNormalized p c
        = (if p.width = 0 ∨ p.height = 0 then none
           else some { left := c.xRel * p.width, top := c.yRel * p.height,
                       width := c.wRel * p.width, height := c.hRel * p.height })
    ∧ ((computeNormalizedFromPixels p left top width height).isSome = true
        ↔ (p.width ≠ 0 ∧ p.height ≠ 0))
    ∧ ((computePixelsFromNormalized p c).isSome = true
        ↔ (p.width ≠ 0 ∧ p.height ≠ 0)) := by
  refine ⟨rfl, rfl, ?_, ?_⟩
  · unfold computeNormalizedFromPixels
    by_cases h : p.width = 0 ∨ p.height = 0
    · rw [if_pos h]
      simp only [Option.isSome_none, Bool.false_eq_true, false_iff, not_and_or, not_not]
      exact h
    · rw [if_neg h]
      simp only [Option.isSome_some, true_iff]
      exact not_or.mp h
  · unfold computePixelsFromNormalized
    by_cases h : p.width = 0 ∨ p.height = 0
    · rw [if_pos h]
      simp only [Option.isSome_none, Bool.false_eq_true, false_iff, not_and_or, not_not]
      exact h
    · rw [if_neg h]
      simp only [Option.isSome_some, true_iff]
      exact not_or.mp h

/-- C3. Creation: with both page dimensions non-zero, a drop at page pixel point
`(cx, cy)` appends exactly one field of the given type on page `currentPage - 1`,
with empty value, unchecked, with coordinate
`((cx - 0.2 W / 2) / W, (cy - 20) / H, 0.2, 40 / H)`, whose derived pixel rect has size
`0.2 W` by `40` and centre `(cx, cy)`; existing fields are kept and the new field
is selected. -/
theorem C3_creation (s : AppState) (e : MouseEvent) (overlayRect : DOMRect)
    (id fieldType : String) (cx cy : ℚ)
    (hW : s.pagePixelSize.width ≠ 0) (hH : s.pagePixelSize.height ≠ 0)
    (hcx : cx = e.clientX - overlayRect.left - 12)
    (hcy : cy = e.clientY - overlayRect.top - 12) :
    handleDropField e overlayRect id fieldType s
        = .ok { s with
                fields := s.fields ++
                  [{ id := id, type := fieldType, pageIndex := s.currentPage - 1,
                     coordinate :=
                       { xRel := (cx - (2 / 10) * s.pagePixelSize.width / 2)
                                   / s.pagePixelSize.width
                         yRel := (cy - 20) / s.pagePixelSize.height
                         wRel := 2 / 10
                         hRel := 40 / s.pagePixelSize.height }
                     value := "", checked := false }]
                selectedFieldId := some id }
    ∧ computePixelsFromNormalized s.pagePixelSize
          { xRel := (cx - (2 / 10) * s.pagePixelSize.width / 2) / s.pagePixelSize.width
            yRel := (cy - 20) / s.pagePixelSize.height
            wRel := 2 / 10
            hRel := 40 / s.pagePixelSize.height }
        = some { left := cx - ((2 / 10) * s.pagePixelSize.width) / 2
                 top := cy - 40 / 2
                 width := (2 / 10) * s.pagePixelSize.width
                 height := 40 } := by
  subst hcx hcy
  have hx : (e.clientX - overlayRect.left - 12 - s.pagePixelSize.width * (2 / 10) / 2)
        / s.pagePixelSize.width
      = (e.clientX - overlayRect.left - 12 - 2 / 10 * s.pagePixelSize.width / 2)
        / s.pagePixelSize.width := by ring
  have hy : (e.clientY - overlayRect.top - 12 - 40 / 2) / s.pagePixelSize.height
      = (e.clientY - overlayRect.top - 12 - 20) / s.pagePixelSize.height := by norm_num
  have hw : s.pagePixelSize.width * (2 / 10) / s.pagePixelSize.width = 2 / 10 := by
    field_simp
    ring
  constructor
  · simp only [handleDropField, computeNormalizedFromPixels, hW, hH, or_self, if_false,
      hx, hy, hw]
  · have h1 : (e.clientX - overlayRect.left - 12 - 2 / 10 * s.pagePixelSize.width / 2)
          / s.pagePixelSize.width * s.pagePixelSize.width
        = e.clientX - overlayRect.left - 12 - 2 / 10 * s.pagePixelSize.width / 2 := by
      field_simp
      ring
    have h2 : (e.clientY - overlayRect.top - 12 - 20) / s.pagePixelSize.height
          * s.pagePixelSize.height
        = e.clientY - overlayRect.top - 12 - 40 / 2 := by
      field_simp
      ring
    have h3 : (40 : ℚ) / s.pagePixelSize.height * s.pagePixelSize.height = 40 := by
      field_simp
    simp only [computePixelsFromNormalized, hW, hH, or_self, if_false, h1, h2, h3]

/-- C3 at page size (800,1000) and drop point (400,500): the created field has
normalized coordinate (0.4, 0.48, 0.2, 0.04), pixel origin (320,480), pixel size
160 by 40, and is selected. -/
theorem C3_creation_witness :
    handleDropField { clientX := 512, clientY := 562 }
        { left := 100, top := 50, width := 824, height := 1024 } "f1" "text"
        { initialState with pagePixelSize := { width := 800, height := 1000 } }
      = .ok { initialState with
              pagePixelSize := { width := 800, height := 1000 }
              fields := [{ id := "f1", type := "text", pageIndex := 0,
                           coordinate := { xRel := 4 / 10, yRel := 48 / 100,
                                           wRel := 2 / 10, hRel := 4 / 100 }
                           value := "", checked := false }]
              selectedFieldId := some "f1" }
    ∧ computePixelsFromNormalized { width := 800, height := 1000 }
          { xRel := 4 / 10, yRel := 48 / 100, wRel := 2 / 10, hRel := 4 / 100 }
        = some { left := 320, top := 480, width := 160, height := 40 } := by
  have h := C3_creation
    { initialState with pagePixelSize := { width := 800, height := 1000 } }
    { clientX := 512, clientY := 562 }
    { left := 100, top := 50, width := 824, height := 1024 } "f1" "text" 400 500
    (by norm_num) (by norm_num) (by norm_num) (by norm_num)
  norm_num [initialState] at h ⊢
  exact h

/-- C4. Geometry unavailable is a no-op: when a page pixel dimension is zero, dropping
a field, pointer-down on a field body, pointer-down on a resize handle and pointer move
all return normally with the whole state unchanged (field list, selection and the
drag and resize sessions, so an active session stays active). -/
theorem C4_unavailable_noop (s : AppState)
    (h0 : s.pagePixelSize.width = 0 ∨ s.pagePixelSize.height = 0) :
    (∀ (e : MouseEvent) (overlayRect : DOMRect) (id fieldType : String),
        handleDropField e overlayRect id fieldType s = .ok s)
    ∧ (∀ (e : MouseEvent) (fieldId : String), handleFieldMouseDown e fieldId s = .ok s)
    ∧ (∀ (e : MouseEvent) (fieldId : String), handleResizeMouseDown e fieldId s = .ok s)
    ∧ (∀ e : MouseEvent, handleMouseMove e s = .ok s) := by
  have hpx : ∀ c : NormalizedRect, computePixelsFromNormalized s.pagePixelSize c = none := by
    intro c
    unfold computePixelsFromNormalized
    rw [if_pos h0]
  refine ⟨?_, ?_, ?_, ?_⟩
  · intro e overlayRect id fieldType
    unfold handleDropField
    rw [if_pos h0]
  · intro e fieldId
    unfold handleFieldMouseDown
    cases s.fields.find? (fun f => decide (f.id = fieldId)) with
    | none => rfl
    | some field => simp only [hpx]
  · intro e fieldId
    unfold handleResizeMouseDown
    cases s.fields.find? (fun f => decide (f.id = fieldId)) with
    | none => rfl
    | some field => simp only [hpx]
  · intro e
    unfold handleMouseMove
    rw [if_pos h0]

/-- C4 at page size (0,0) with one field and an active drag on it: creating a field
adds nothing and a pointer move changes nothing, the drag staying active. -/
theorem C4_unavailable_noop_witness :
    handleDropField { clientX := 400, clientY := 500 }
        { left := 0, top := 0, width := 24, height := 24 } "b" "text" unknownPageDragging
      = .ok unknownPageDragging
    ∧ handleMouseMove { clientX := 50, clientY := 60 } unknownPageDragging
      = .ok unknownPageDragging :=
  ⟨(C4_unavailable_noop unknownPageDragging (Or.inl rfl)).1 _ _ _ _,
   (C4_unavailable_noop unknownPageDragging (Or.inl rfl)).2.2.2 _⟩

/-- C7. Selection clearing: `deleteField id` returns normally; the new field list is
the old one with exactly the fields whose id is `id` removed, the others kept in
their original order; the selection becomes none when `id` was selected and is
unchanged otherwise; nothing else changes. -/
theorem C7_deleteField (s : AppState) (id : String) :
    deleteField id s
        = .ok { s with
                fields := s.fields.filter (fun f => decide (f.id ≠ id))
                selectedFieldId :=
                  if s.selectedFieldId = some id then none else s.selectedFieldId }
    ∧ (∀ f : Field, f ∈ s.fields.filter (fun f => decide (f.id ≠ id))
          ↔ (f ∈ s.fields ∧ f.id ≠ id))
    ∧ List.Sublist (s.fields.filter (fun f => decide (f.id ≠ id))) s.fields := by
  refine ⟨?_, ?_, List.filter_sublist _⟩
  · unfold deleteField
    by_cases h : s.selectedFieldId = some id
    · simp only [h, if_true]
    · simp only [h, if_false]
  · intro f
    simp [List.mem_filter]

/-- C10. Pointer up ends the session: from every state `handleMouseUp` returns
normally with both the drag session and the resize session empty, and with the field
list, the selection, the page size and the current page unchanged. -/
theorem C10_mouseUp_idle (s : AppState) :
    handleMouseUp s = .ok { s with dragState := none, resizeState := none } :=
  handleMouseUp_eq s

/-- C5 (as stated, refuted). At page size (800,1000) field `a` has pixel rect
(80,100,160,100).  After a pointer-down at (240,200) on its resize handle, which no
pointer-up followed, a pointer-down at (100,120) on its body records a drag session;
the pointer move to (110,115), a delta of (10,-5), returns normally and leaves `a` at
pixel rect (80,100,30,20), not at (90,95,160,100): the resize write-back of the same
move comes last. -/
theorem C5_drag_with_resize_counterexample :
    handleResizeMouseDown { clientX := 240, clientY := 200 } "a" twoFieldsIdle = .ok resizingA
    ∧ computePixelsFromNormalized resizingA.pagePixelSize sampleFieldA.coordinate
        = some { left := 80, top := 100, width := 160, height := 100 }
    ∧ handleFieldMouseDown { clientX := 100, clientY := 120 } "a" resizingA
        = .ok { resizingA with
                dragState := some { fieldId := "a", startX := 100, startY := 120,
                                    initialLeft := 80, initialTop := 100 }
                selectedFieldId := some "a" }
    ∧ handleMouseMove { clientX := 110, clientY := 115 }
          { resizingA with
            dragState := some { fieldId := "a", startX := 100, startY := 120,
                                initialLeft := 80, initialTop := 100 }
            selectedFieldId := some "a" }
        = .ok { resizingA with
                dragState := some { fieldId := "a", startX := 100, startY := 120,
                                    initialLeft := 80, initialTop := 100 }
                selectedFieldId := some "a"
                fields :=
                  [ { sampleFieldA with
                      coordinate := { xRel := 1 / 10, yRel := 1 / 10,
                                      wRel := 3 / 80, hRel := 1 / 50 } },
                    sampleFieldB ] }
    ∧ computePixelsFromNormalized resizingA.pagePixelSize
          { xRel := 1 / 10, yRel := 1 / 10, wRel := 3 / 80, hRel := 1 / 50 }
        = some { left := 80, top := 100, width := 30, height := 20 }
    ∧ computePixelsFromNormalized resizingA.pagePixelSize
          { xRel := 1 / 10, yRel := 1 / 10, wRel := 3 / 80, hRel := 1 / 50 }
        ≠ some { left := 80 + 10, top := 100 + (-5), width := 160, height := 100 } := by
  have hba : decide (("b" : String) = "a") = false := by decide
  have hba2 : ("b" : String) ≠ "a" := by decide
  have hm1 : max (30 : ℚ) (160 + (110 - 240)) = 30 := by norm_num
  have hm2 : max (20 : ℚ) (100 + (115 - 200)) = 20 := by norm_num
  refine ⟨?_, ?_, ?_, ?_, ?_, ?_⟩
  · norm_num [resizingA, twoFieldsIdle, sampleFieldA, sampleFieldB, initialState,
      handleResizeMouseDown, computePixelsFromNormalized, List.find?]
  · norm_num [resizingA, twoFieldsIdle, sampleFieldA, computePixelsFromNormalized]
  · norm_num [resizingA, twoFieldsIdle, sampleFieldA, sampleFieldB, initialState,
      handleFieldMouseDown, computePixelsFromNormalized, List.find?]
  · simp only [resizingA, twoFieldsIdle, sampleFieldA, sampleFieldB, initialState,
      handleMouseMove, dragBranch, resizeBranch, pixelsOfField, writeCoordinate,
      computePixelsFromNormalized, computeNormalizedFromPixels, List.find?, hm1, hm2]
    norm_num [hba2]
  · norm_num [resizingA, twoFieldsIdle, computePixelsFromNormalized]
  · norm_num [resizingA, twoFieldsIdle, computePixelsFromNormalized]

/-- C5 (amended). Drag invariance under fixed page size when no resize session is
recorded on the dragged field: with both page dimensions positive, pointer-down at
`(x0, y0)` on the body of a field whose derived pixel rect is `(L, T, w, h)`, followed
by any pointer moves and then a pointer move to `(x0 + dx, y0 + dy)`, all return
normally and leave the field with derived pixel rect `(L + dx, T + dy, w, h)` and with
`wRel` and `hRel` unchanged.  A resize session recorded on another field does not
interfere. -/
theorem C5_drag_invariance (s : AppState) (f : Field) (L T w h x0 y0 dx dy : ℚ)
    (moves : List MouseEvent)
    (hW : 0 < s.pagePixelSize.width) (hH : 0 < s.pagePixelSize.height)
    (hres : ∀ r, s.resizeState = some r → r.fieldId ≠ f.id)
    (hf : s.fields.find? (fun g => decide (g.id = f.id)) = some f)
    (hpx : computePixelsFromNormalized s.pagePixelSize f.coordinate
            = some { left := L, top := T, width := w, height := h }) :
    ∃ s1 sm s2 f2,
      handleFieldMouseDown { clientX := x0, clientY := y0 } f.id s = .ok s1
      ∧ run s1 (moves.map Event.mouseMove) = .ok sm
      ∧ handleMouseMove { clientX := x0 + dx, clientY := y0 + dy } sm = .ok s2
      ∧ s2.pagePixelSize = s.pagePixelSize
      ∧ s2.fields.find? (fun g => decide (g.id = f.id)) = some f2
      ∧ computePixelsFromNormalized s2.pagePixelSize f2.coordinate
          = some { left := L + dx, top := T + dy, width := w, height := h }
      ∧ f2.coordinate.wRel = f.coordinate.wRel
      ∧ f2.coordinate.hRel = f.coordinate.hRel := by
  have hW0 : s.pagePixelSize.width ≠ 0 := ne_of_gt hW
  have hH0 : s.pagePixelSize.height ≠ 0 := ne_of_gt hH
  rw [computePixels_of_ne_zero _ _ hW0 hH0] at hpx
  simp only [Option.some.injEq, PixelRect.mk.injEq] at hpx
  obtain ⟨hL, hT, hw, hh⟩ := hpx
  obtain ⟨s1, hdown, hp1, hd1, hr1, hfl1⟩ :
      ∃ s1, handleFieldMouseDown { clientX := x0, clientY := y0 } f.id s = .ok s1
        ∧ s1.pagePixelSize = s.pagePixelSize
        ∧ s1.dragState = some { fieldId := f.id, startX := x0, startY := y0,
                                initialLeft := L, initialTop := T }
        ∧ s1.resizeState = s.resizeState ∧ s1.fields = s.fields := by
    refine ⟨{ s with
              dragState := some { fieldId := f.id, startX := x0, startY := y0,
                                  initialLeft := L, initialTop := T }
              selectedFieldId := some f.id }, ?_, rfl, rfl, rfl, rfl⟩
    simp only [handleFieldMouseDown, hf, computePixels_of_ne_zero _ _ hW0 hH0, hL, hT]
  obtain ⟨sm, hrun, hpm, hdm, hrm, -, fm, hfm, hfmw, hfmh⟩ :=
    run_moves_dragging_other
      { fieldId := f.id, startX := x0, startY := y0, initialLeft := L, initialTop := T }
      f.coordinate.wRel f.coordinate.hRel moves s1
      (by rw [hp1]; exact hW0) (by rw [hp1]; exact hH0) hd1
      (by rw [hr1]; exact hres)
      (by rw [hfl1]; exact ⟨f, hf, rfl, rfl⟩)
  have hWm : sm.pagePixelSize.width ≠ 0 := by rw [hpm, hp1]; exact hW0
  have hHm : sm.pagePixelSize.height ≠ 0 := by rw [hpm, hp1]; exact hH0
  obtain ⟨s2, hmove, hp2, -, -, -, hfind2⟩ :=
    handleMouseMove_dragging_other sm
      { fieldId := f.id, startX := x0, startY := y0, initialLeft := L, initialTop := T }
      fm { clientX := x0 + dx, clientY := y0 + dy } hWm hHm hdm
      (by rw [hrm, hr1]; exact hres) hfm
  refine ⟨s1, sm, s2, _, hdown, hrun, hmove, (hp2.trans hpm).trans hp1, hfind2, ?_, hfmw, hfmh⟩
  rw [hp2, computePixels_of_ne_zero _ _ hWm hHm]
  simp only [hfmw, hfmh, hpm, hp1, hw, hh, Option.some.injEq, PixelRect.mk.injEq,
    and_true]
  constructor
  · field_simp
  · field_simp

/-- C5 (amended) at page size (800,1000) with a resize session recorded on `b`: field
`a` has pixel rect (80,100,160,100); pointer-down at (100,120), a move to (103,118)
and a move to (110,115) leave it at (90,95,160,100). -/
theorem C5_drag_invariance_witness :
    ∃ s1 sm s2 f2,
      handleFieldMouseDown { clientX := 100, clientY := 120 } sampleFieldA.id resizingB
        = .ok s1
      ∧ run s1 ([({ clientX := 103, clientY := 118 } : MouseEvent)].map Event.mouseMove)
        = .ok sm
      ∧ handleMouseMove { clientX := 100 + 10, clientY := 120 + (-5) } sm = .ok s2
      ∧ s2.pagePixelSize = resizingB.pagePixelSize
      ∧ s2.fields.find? (fun g => decide (g.id = sampleFieldA.id)) = some f2
      ∧ computePixelsFromNormalized s2.pagePixelSize f2.coordinate
          = some { left := 80 + 10, top := 100 + (-5), width := 160, height := 100 }
      ∧ f2.coordinate.wRel = sampleFieldA.coordinate.wRel
      ∧ f2.coordinate.hRel = sampleFieldA.coordinate.hRel :=
  C5_drag_invariance resizingB sampleFieldA 80 100 160 100 100 120 10 (-5)
    [{ clientX := 103, clientY := 118 }]
    (by norm_num [resizingB, twoFieldsIdle]) (by norm_num [resizingB, twoFieldsIdle])
    (by
      intro r hr
      have hba : ("b" : String) ≠ "a" := by decide
      simp only [resizingB, Option.some.injEq] at hr
      rw [← hr]
      exact hba)
    (by simp [resizingB, twoFieldsIdle, sampleFieldA, List.find?])
    (by norm_num [resizingB, twoFieldsIdle, sampleFieldA, computePixelsFromNormalized])

/-- C6. Resize floor: with both page dimensions positive and no drag session,
pointer-down at `(x0, y0)` on the resize handle of a field whose derived pixel rect is
`(L, T, w0, h0)`, followed by any pointer moves and then a pointer move to
`(x0 + dx, y0 + dy)`, all return normally and leave the field with derived pixel rect
`(L, T, max 30 (w0 + dx), max 20 (h0 + dy))`; so the width is at least 30, the height
at least 20, the origin is unchanged, and the stored relative size is the floored pixel
size divided by the page size. -/
theorem C6_resize_floor (s : AppState) (f : Field) (L T w0 h0 x0 y0 dx dy : ℚ)
    (moves : List MouseEvent)
    (hW : 0 < s.pagePixelSize.width) (hH : 0 < s.pagePixelSize.height)
    (hdrag : s.dragState = none)
    (hf : s.fields.find? (fun g => decide (g.id = f.id)) = some f)
    (hpx : computePixelsFromNormalized s.pagePixelSize f.coordinate
            = some { left := L, top := T, width := w0, height := h0 }) :
    ∃ s1 sm s2 f2,
      handleResizeMouseDown { clientX := x0, clientY := y0 } f.id s = .ok s1
      ∧ run s1 (moves.map Event.mouseMove) = .ok sm
      ∧ handleMouseMove { clientX := x0 + dx, clientY := y0 + dy } sm = .ok s2
      ∧ s2.pagePixelSize = s.pagePixelSize
      ∧ s2.fields.find? (fun g => decide (g.id = f.id)) = some f2
      ∧ computePixelsFromNormalized s2.pagePixelSize f2.coordinate
          = some { left := L, top := T,
                   width := max 30 (w0 + dx), height := max 20 (h0 + dy) }
      ∧ 30 ≤ max 30 (w0 + dx) ∧ 20 ≤ max 20 (h0 + dy)
      ∧ f2.coordinate.wRel = max 30 (w0 + dx) / s.pagePixelSize.width
      ∧ f2.coordinate.hRel = max 20 (h0 + dy) / s.pagePixelSize.height := by
  have hW0 : s.pagePixelSize.width ≠ 0 := ne_of_gt hW
  have hH0 : s.pagePixelSize.height ≠ 0 := ne_of_gt hH
  rw [computePixels_of_ne_zero _ _ hW0 hH0] at hpx
  simp only [Option.some.injEq, PixelRect.mk.injEq] at hpx
  obtain ⟨hL, hT, hw, hh⟩ := hpx
  obtain ⟨s1, hdown, hp1, hd1, hr1, hfl1⟩ :
      ∃ s1, handleResizeMouseDown { clientX := x0, clientY := y0 } f.id s = .ok s1
        ∧ s1.pagePixelSize = s.pagePixelSize
        ∧ s1.dragState = none
        ∧ s1.resizeState = some { fieldId := f.id, startX := x0, startY := y0,
                                  initialWidth := w0, initialHeight := h0,
                                  initialLeft := L, initialTop := T }
        ∧ s1.fields = s.fields := by
    refine ⟨{ s with
              resizeState := some { fieldId := f.id, startX := x0, startY := y0,
                                    initialWidth := w0, initialHeight := h0,
                                    initialLeft := L, initialTop := T } },
            ?_, rfl, hdrag, rfl, rfl⟩
    simp only [handleResizeMouseDown, hf, computePixels_of_ne_zero _ _ hW0 hH0,
      hL, hT, hw, hh]
  obtain ⟨sm, hrun, hpm, hdm, hrm, -, fm, hfm⟩ :=
    run_moves_resizing
      { fieldId := f.id, startX := x0, startY := y0, initialWidth := w0,
        initialHeight := h0, initialLeft := L, initialTop := T }
      moves s1 (by rw [hp1]; exact hW0) (by rw [hp1]; exact hH0) hd1 hr1
      (by rw [hfl1]; exact ⟨f, hf⟩)
  have hWm : sm.pagePixelSize.width ≠ 0 := by rw [hpm, hp1]; exact hW0
  have hHm : sm.pagePixelSize.height ≠ 0 := by rw [hpm, hp1]; exact hH0
  obtain ⟨s2, hmove, hp2, hfl2⟩ :
      ∃ s2, handleMouseMove { clientX := x0 + dx, clientY := y0 + dy } sm = .ok s2
        ∧ s2.pagePixelSize = sm.pagePixelSize
        ∧ s2.fields = writeCoordinate f.id
            { xRel := L / sm.pagePixelSize.width
              yRel := T / sm.pagePixelSize.height
              wRel := max 30 (w0 + (x0 + dx - x0)) / sm.pagePixelSize.width
              hRel := max 20 (h0 + (y0 + dy - y0)) / sm.pagePixelSize.height }
            sm.fields :=
    ⟨_, handleMouseMove_resizing sm _ { clientX := x0 + dx, clientY := y0 + dy }
          hWm hHm hdm hrm, rfl, rfl⟩
  have hfind2 : s2.fields.find? (fun g => decide (g.id = f.id))
      = some { fm with
               coordinate :=
                 { xRel := L / sm.pagePixelSize.width
                   yRel := T / sm.pagePixelSize.height
                   wRel := max 30 (w0 + (x0 + dx - x0)) / sm.pagePixelSize.width
                   hRel := max 20 (h0 + (y0 + dy - y0)) / sm.pagePixelSize.height } } := by
    rw [hfl2, find_writeCoordinate]
    have hfm2 : sm.fields.find? (fun g => decide (g.id = f.id)) = some fm := hfm
    rw [hfm2]
    rfl
  have hx : x0 + dx - x0 = dx := by ring
  have hy : y0 + dy - y0 = dy := by ring
  refine ⟨s1, sm, s2, _, hdown, hrun, hmove, (hp2.trans hpm).trans hp1, hfind2, ?_,
    le_max_left _ _, le_max_left _ _, ?_, ?_⟩
  · rw [hp2, computePixels_of_ne_zero _ _ hWm hHm]
    simp only [hx, hy, Option.some.injEq, PixelRect.mk.injEq]
    refine ⟨?_, ?_, ?_, ?_⟩ <;> field_simp
  · simp only [hx, hpm, hp1]
  · simp only [hy, hpm, hp1]

/-- C6 at page size (800,1000): field `a` has pixel rect (80,100,160,100); pointer-down
on its handle at (240,200), a move to (250,210) and a move to (40,50), that is a delta
of (-200,-150), leave it with pixel rect (80,100,30,20). -/
theorem C6_resize_floor_witness :
    ∃ s1 sm s2 f2,
      handleResizeMouseDown { clientX := 240, clientY := 200 } sampleFieldA.id twoFieldsIdle
        = .ok s1
      ∧ run s1 ([({ clientX := 250, clientY := 210 } : MouseEvent)].map Event.mouseMove)
        = .ok sm
      ∧ handleMouseMove { clientX := 240 + (-200), clientY := 200 + (-150) } sm = .ok s2
      ∧ s2.pagePixelSize = twoFieldsIdle.pagePixelSize
      ∧ s2.fields.find? (fun g => decide (g.id = sampleFieldA.id)) = some f2
      ∧ computePixelsFromNormalized s2.pagePixelSize f2.coordinate
          = some { left := 80, top := 100,
                   width := max 30 (160 + (-200)), height := max 20 (100 + (-150)) }
      ∧ (30 : ℚ) ≤ max 30 (160 + (-200)) ∧ (20 : ℚ) ≤ max 20 (100 + (-150))
      ∧ f2.coordinate.wRel = max 30 (160 + (-200)) / twoFieldsIdle.pagePixelSize.width
      ∧ f2.coordinate.hRel = max 20 (100 + (-150)) / twoFieldsIdle.pagePixelSize.height :=
  C6_resize_floor twoFieldsIdle sampleFieldA 80 100 160 100 240 200 (-200) (-150)
    [{ clientX := 250, clientY := 210 }]
    (by norm_num [twoFieldsIdle]) (by norm_num [twoFieldsIdle]) rfl
    (by simp [twoFieldsIdle, sampleFieldA, List.find?])
    (by norm_num [twoFieldsIdle, sampleFieldA, computePixelsFromNormalized])

/-- C8 (as stated, refuted). From the initial state a run reaches a drag session on
`a`; a pointer-down on the body of `b` then replaces it by a drag session on `b` and
moves the selection to `b`, and a pointer-down on the resize handle of `b` adds a
resize session on `b` next to the drag session on `a`. -/
theorem C8_exclusivity_counterexample :
    run initialState draggingATrace = .ok draggingA
    ∧ handleFieldMouseDown { clientX := 600, clientY := 570 } "b" draggingA
        = .ok { draggingA with
                dragState := some { fieldId := "b", startX := 600, startY := 570,
                                    initialLeft := 400, initialTop := 500 }
                selectedFieldId := some "b" }
    ∧ handleResizeMouseDown { clientX := 600, clientY := 570 } "b" draggingA
        = .ok { draggingA with
                resizeState := some { fieldId := "b", startX := 600, startY := 570,
                                      initialWidth := 160, initialHeight := 40,
                                      initialLeft := 400, initialTop := 500 } } := by
  have hab : decide (("a" : String) = "b") = false := by decide
  refine ⟨?_, ?_, ?_⟩
  · norm_num [run, step, draggingATrace, draggingA, initialState, sampleContainer,
      handlePageRenderSuccess, handleDropField, handleFieldMouseDown,
      computeNormalizedFromPixels, computePixelsFromNormalized, List.find?]
  · norm_num [draggingA, handleFieldMouseDown, computePixelsFromNormalized, List.find?,
      hab]
  · norm_num [draggingA, handleResizeMouseDown, computePixelsFromNormalized, List.find?,
      hab]

/-- C8 (amended). There is no Idle-only guard: with both page dimensions non-zero, a
pointer-down on the body of an existing field is accepted in every state; it records a
drag session on that field (pointer position and the field's current pixel origin) in
place of any recorded drag session, selects the field and leaves the resize session as
it was.  A pointer-down on the field's resize handle records a resize session on it in
place of any recorded resize session and leaves the drag session and the selection as
they were.  A pointer-up after either returns both sessions to Idle. -/
theorem C8_pointer_down_overrides (s : AppState) (fB : Field) (e : MouseEvent)
    (hW : s.pagePixelSize.width ≠ 0) (hH : s.pagePixelSize.height ≠ 0)
    (hf : s.fields.find? (fun g => decide (g.id = fB.id)) = some fB) :
    handleFieldMouseDown e fB.id s
        = .ok { s with
                dragState := some
                  { fieldId := fB.id, startX := e.clientX, startY := e.clientY,
                    initialLeft := fB.coordinate.xRel * s.pagePixelSize.width,
                    initialTop := fB.coordinate.yRel * s.pagePixelSize.height }
                selectedFieldId := some fB.id }
    ∧ handleResizeMouseDown e fB.id s
        = .ok { s with
                resizeState := some
                  { fieldId := fB.id, startX := e.clientX, startY := e.clientY,
                    initialWidth := fB.coordinate.wRel * s.pagePixelSize.width,
                    initialHeight := fB.coordinate.hRel * s.pagePixelSize.height,
                    initialLeft := fB.coordinate.xRel * s.pagePixelSize.width,
                    initialTop := fB.coordinate.yRel * s.pagePixelSize.height } }
    ∧ (∀ s1, handleFieldMouseDown e fB.id s = .ok s1 →
        handleMouseUp s1
          = .ok { s with dragState := none, resizeState := none,
                         selectedFieldId := some fB.id })
    ∧ (∀ s1, handleResizeMouseDown e fB.id s = .ok s1 →
        handleMouseUp s1 = .ok { s with dragState := none, resizeState := none }) := by
  have hdown : handleFieldMouseDown e fB.id s
      = .ok { s with
              dragState := some
                { fieldId := fB.id, startX := e.clientX, startY := e.clientY,
                  initialLeft := fB.coordinate.xRel * s.pagePixelSize.width,
                  initialTop := fB.coordinate.yRel * s.pagePixelSize.height }
              selectedFieldId := some fB.id } := by
    simp only [handleFieldMouseDown, hf, computePixels_of_ne_zero _ _ hW hH]
  have hres : handleResizeMouseDown e fB.id s
      = .ok { s with
              resizeState := some
                { fieldId := fB.id, startX := e.clientX, startY := e.clientY,
                  initialWidth := fB.coordinate.wRel * s.pagePixelSize.width,
                  initialHeight := fB.coordinate.hRel * s.pagePixelSize.height,
                  initialLeft := fB.coordinate.xRel * s.pagePixelSize.width,
                  initialTop := fB.coordinate.yRel * s.pagePixelSize.height } } := by
    simp only [handleResizeMouseDown, hf, computePixels_of_ne_zero _ _ hW hH]
  refine ⟨hdown, hres, ?_, ?_⟩
  · intro s1 h1
    rw [hdown] at h1
    cases h1
    rw [handleMouseUp_eq]
  · intro s1 h1
    rw [hres] at h1
    cases h1
    rw [handleMouseUp_eq]

/-- C8 (amended) at the state with a drag session on `a`: a pointer-down at (610,580)
on `b`, whose pixel rect is (400,500,160,40), is accepted. -/
theorem C8_pointer_down_overrides_witness :
    handleFieldMouseDown { clientX := 610, clientY := 580 } "b" draggingA
        = .ok { draggingA with
                dragState := some
                  { fieldId := "b", startX := 610, startY := 580,
                    initialLeft := 1 / 2 * 800, initialTop := 1 / 2 * 1000 }
                selectedFieldId := some "b" } :=
  (C8_pointer_down_overrides draggingA
    { id := "b", type := "signature", pageIndex := 0,
      coordinate := { xRel := 1 / 2, yRel := 1 / 2, wRel := 1 / 5, hRel := 1 / 25 },
      value := "", checked := false }
    { clientX := 610, clientY := 580 }
    (by norm_num [draggingA]) (by norm_num [draggingA])
    (by
      have hab : decide (("a" : String) = "b") = false := by decide
      simp [draggingA, List.find?, hab])).1

/-- C9 (as stated, refuted). From the initial state a run reaches a resize session
on a deleted field; the next pointer move returns normally and leaves the state as it
was, so the resize session is still recorded and not forced to Idle.  Another run
reaches a drag session on a deleted field; the next pointer move raises a
`TypeError`. -/
theorem C9_stale_session_counterexample :
    run initialState staleResizeTrace = .ok staleResizing
    ∧ handleMouseMove { clientX := 300, clientY := 200 } staleResizing = .ok staleResizing
    ∧ staleResizing.resizeState ≠ none
    ∧ run initialState staleDragTrace = .ok staleDragging
    ∧ handleMouseMove { clientX := 300, clientY := 200 } staleDragging
        = .error JsError.typeError := by
  refine ⟨?_, ?_, ?_, ?_, ?_⟩
  · norm_num [run, step, staleResizeTrace, staleResizing, initialState, sampleContainer,
      handlePageRenderSuccess, handleDropField, handleResizeMouseDown, deleteField,
      computeNormalizedFromPixels, computePixelsFromNormalized, List.find?]
  · norm_num [staleResizing, handleMouseMove, dragBranch, resizeBranch, writeCoordinate,
      computeNormalizedFromPixels]
  · simp [staleResizing]
  · norm_num [run, step, staleDragTrace, staleDragging, initialState, sampleContainer,
      handlePageRenderSuccess, handleDropField, handleFieldMouseDown, deleteField,
      computeNormalizedFromPixels, computePixelsFromNormalized, List.find?]
  · norm_num [staleDragging, handleMouseMove, dragBranch, pixelsOfField, List.find?]

/-- C9 (amended). If only a resize session is recorded and it refers to a field id
that no field carries, the next pointer move returns normally and leaves the whole
state unchanged: no field changes, and the resize session stays recorded (it ends at
the next pointer-up). -/
theorem C9_stale_resize_move (s : AppState) (r : ResizeState) (e : MouseEvent)
    (hd : s.dragState = none) (hr : s.resizeState = some r)
    (hgone : ∀ f ∈ s.fields, f.id ≠ r.fieldId) :
    handleMouseMove e s = .ok s
    ∧ handleMouseUp s = .ok { s with resizeState := none } := by
  constructor
  · by_cases h0 : s.pagePixelSize.width = 0 ∨ s.pagePixelSize.height = 0
    · unfold handleMouseMove
      rw [if_pos h0]
    · obtain ⟨hW, hH⟩ := not_or.mp h0
      rw [handleMouseMove_resizing s r e hW hH hd hr, writeCoordinate_of_absent _ _ _ hgone]
  · rw [handleMouseUp_eq]
    obtain ⟨fields, sel, pps, page, d, rs⟩ := s
    simp only at hd
    subst hd
    rfl

/-- C9 (amended) at the state with a resize session on the deleted field `a`. -/
theorem C9_stale_resize_move_witness :
    handleMouseMove { clientX := 300, clientY := 200 } staleResizing = .ok staleResizing
    ∧ handleMouseUp staleResizing = .ok { staleResizing with resizeState := none } :=
  C9_stale_resize_move staleResizing
    { fieldId := "a", startX := 240, startY := 150, initialWidth := 160,
      initialHeight := 40, initialLeft := 80, initialTop := 130 }
    { clientX := 300, clientY := 200 } rfl rfl
    (by intro f hf; simp [staleResizing] at hf)

/-- C11. Zoom consistency: with both page dimensions and the scale factor `k` non-zero,
the pixel rect derived from a normalized coordinate under page size `(k W, k H)` is,
component by component, `k` times the one derived under `(W, H)`; and a new page
pixel size, whether set by a page render or by a window resize, changes no stored
field. -/
theorem C11_zoom_consistency (c : NormalizedRect) (p : PagePixelSize) (k : ℚ)
    (s : AppState) (rect : Option DOMRect)
    (hW : p.width ≠ 0) (hH : p.height ≠ 0) (hk : k ≠ 0) :
    computePixelsFromNormalized p c
        = some { left := c.xRel * p.width, top := c.yRel * p.height,
                 width := c.wRel * p.width, height := c.hRel * p.height }
    ∧ computePixelsFromNormalized { width := k * p.width, height := k * p.height } c
        = some { left := k * (c.xRel * p.width), top := k * (c.yRel * p.height),
                 width := k * (c.wRel * p.width), height := k * (c.hRel * p.height) }
    ∧ (handlePageRenderSuccess rect s).fields = s.fields
    ∧ (handleResize rect s).fields = s.fields := by
  refine ⟨computePixels_of_ne_zero p c hW hH, ?_, ?_, ?_⟩
  · rw [computePixels_of_ne_zero _ c (mul_ne_zero hk hW) (mul_ne_zero hk hH)]
    simp only [Option.some.injEq, PixelRect.mk.injEq]
    refine ⟨?_, ?_, ?_, ?_⟩ <;> ring
  · cases rect <;> rfl
  · cases rect <;> rfl

/-- C11 at the coordinate (0.4, 0.48, 0.2, 0.04): under (800,1000) the pixel rect is
(320,480,160,40), under (1200,1500), a zoom by 1.5, it is (480,720,240,60). -/
theorem C11_zoom_consistency_witness :
    computePixelsFromNormalized { width := 800, height := 1000 }
          { xRel := 4 / 10, yRel := 48 / 100, wRel := 2 / 10, hRel := 4 / 100 }
        = some { left := 320, top := 480, width := 160, height := 40 }
    ∧ computePixelsFromNormalized { width := 1200, height := 1500 }
          { xRel := 4 / 10, yRel := 48 / 100, wRel := 2 / 10, hRel := 4 / 100 }
        = some { left := 3 / 2 * 320, top := 3 / 2 * 480,
                 width := 3 / 2 * 160, height := 3 / 2 * 40 }
    ∧ (handlePageRenderSuccess
          (some { left := 0, top := 0, width := 1224, height := 1524 }) twoFieldsIdle).fields
        = twoFieldsIdle.fields := by
  have h := C11_zoom_consistency
    { xRel := 4 / 10, yRel := 48 / 100, wRel := 2 / 10, hRel := 4 / 100 }
    { width := 800, height := 1000 } (3 / 2) twoFieldsIdle
    (some { left := 0, top := 0, width := 1224, height := 1524 })
    (by norm_num) (by norm_num) (by norm_num)
  refine ⟨?_, ?_, h.2.2.1⟩
  · have h1 := h.1
    norm_num at h1 ⊢
    exact h1
  · have h2 := h.2.1
    norm_num at h2 ⊢
    exact h2

/-- C12. Serialization: the payload built by `handleSignDocument` has the length and
order of the field list; its entry at each index carries that field's own type,
page index, raw `xRel`, `yRel`, `wRel`, `hRel`, value and checked flag; the payload
does not depend on the field ids; and this payload is what the sign request sends. -/
theorem C12_serialization (fields : List Field) :
    (payloadFields fields).length = fields.length
    ∧ (∀ i : ℕ, (payloadFields fields)[i]?
        = (fields[i]?).map (fun f =>
            { type := f.type, pageIndex := f.pageIndex,
              xRel := f.coordinate.xRel, yRel := f.coordinate.yRel,
              wRel := f.coordinate.wRel, hRel := f.coordinate.hRel,
              value := f.value, checked := f.checked }))
    ∧ (∀ g : Field → String,
        payloadFields (fields.map (fun f => { f with id := g f })) = payloadFields fields)
    ∧ (∀ (s : ShellState) (pdfId file b64 : String) (response : Settled (Option SignData)),
        s.core.fields = fields →
        s.pdfMeta.pdfId = some pdfId → pdfId ≠ "" → s.signatureFile = some file →
        fields.any (fun f => decide (f.type = "signature")) = true →
        (handleSignDocument s (.resolved b64) response).take 3
          = [Effect.setIsSigning true, Effect.readSignatureFile file,
             Effect.postSignPdf pdfId b64 (payloadFields fields)]) := by
  have hval : ∀ v : String, orEmpty v = v := by
    intro v
    unfold orEmpty
    by_cases h : v = ""
    · rw [if_pos h, h]
    · rw [if_neg h]
  have hchk : ∀ b : Bool, notNot b = b := by
    intro b
    cases b <;> rfl
  refine ⟨?_, ?_, ?_, ?_⟩
  · simp [payloadFields]
  · intro i
    simp only [payloadFields, List.getElem?_map, hval, hchk]
  · intro g
    simp only [payloadFields, List.map_map]
    rfl
  · intro s pdfId file b64 response hfs hid hne hfile hany
    simp only [handleSignDocument, hid, hne, hfile, hfs, hany, if_false, Bool.not_true,
      Bool.false_eq_true]
    rfl

/-- C12 on the two sample fields: entry 0 of the payload is field `a` without its id. -/
theorem C12_serialization_witness :
    (payloadFields [sampleFieldA, sampleFieldB])[0]?
      = some { type := "text", pageIndex := 0, xRel := 1 / 10, yRel := 1 / 10,
               wRel := 2 / 10, hRel := 1 / 10, value := "", checked := false } :=
  (C12_serialization [sampleFieldA, sampleFieldB]).2.1 0

/-- C15. The drop offset agrees with the page-size measurement: when the page pixel
size was set from the container box of size `(Wc, Hc)` as `(Wc - 24, Hc - 24)`, both
non-zero, and the drop is measured against the same box, the drop appends one field
whose derived pixel rect is centred at the pointer position minus the container's
top-left corner minus 12 in each axis; for a drop at the centre of the container box
the normalized centre of the field is `(1/2, 1/2)`. -/
theorem C15_drop_offset (s0 : AppState) (rect : DOMRect) (e : MouseEvent)
    (id fieldType : String)
    (hW : rect.width - 24 ≠ 0) (hH : rect.height - 24 ≠ 0) :
    ∃ nf px,
      handleDropField e rect id fieldType (handlePageRenderSuccess (some rect) s0)
        = .ok { handlePageRenderSuccess (some rect) s0 with
                fields := s0.fields ++ [nf], selectedFieldId := some id }
      ∧ computePixelsFromNormalized { width := rect.width - 24, height := rect.height - 24 }
          nf.coordinate = some px
      ∧ px.left + px.width / 2 = e.clientX - rect.left - 12
      ∧ px.top + px.height / 2 = e.clientY - rect.top - 12
      ∧ (e.clientX = rect.left + rect.width / 2 → e.clientY = rect.top + rect.height / 2 →
          nf.coordinate.xRel + nf.coordinate.wRel / 2 = 1 / 2
          ∧ nf.coordinate.yRel + nf.coordinate.hRel / 2 = 1 / 2) := by
  have hdrop := handleDropField_of_ne_zero (handlePageRenderSuccess (some rect) s0) e rect
    id fieldType hW hH
  refine ⟨_, _, hdrop, computePixels_of_ne_zero _ _ hW hH, ?_, ?_, ?_⟩
  · show (e.clientX - rect.left - 12 - (rect.width - 24) * (2 / 10) / 2) / (rect.width - 24)
          * (rect.width - 24)
        + (rect.width - 24) * (2 / 10) / (rect.width - 24) * (rect.width - 24) / 2
        = e.clientX - rect.left - 12
    field_simp
    ring
  · show (e.clientY - rect.top - 12 - 40 / 2) / (rect.height - 24) * (rect.height - 24)
        + 40 / (rect.height - 24) * (rect.height - 24) / 2
        = e.clientY - rect.top - 12
    field_simp
    ring
  · intro hx hy
    constructor
    · show (e.clientX - rect.left - 12 - (rect.width - 24) * (2 / 10) / 2) / (rect.width - 24)
          + (rect.width - 24) * (2 / 10) / (rect.width - 24) / 2 = 1 / 2
      rw [hx]
      field_simp
      ring
    · show (e.clientY - rect.top - 12 - 40 / 2) / (rect.height - 24)
          + 40 / (rect.height - 24) / 2 = 1 / 2
      rw [hy]
      field_simp
      ring

/-- C15 for the container box with top-left (100,50) and size 824 by 1024 and a drop
at its centre (512,562). -/
theorem C15_drop_offset_witness :
    ∃ nf px,
      handleDropField { clientX := 512, clientY := 562 } sampleContainer "f1" "text"
          (handlePageRenderSuccess (some sampleContainer) initialState)
        = .ok { handlePageRenderSuccess (some sampleContainer) initialState with
                fields := initialState.fields ++ [nf], selectedFieldId := some "f1" }
      ∧ computePixelsFromNormalized
          { width := sampleContainer.width - 24, height := sampleContainer.height - 24 }
          nf.coordinate = some px
      ∧ px.left + px.width / 2
          = ({ clientX := 512, clientY := 562 } : MouseEvent).clientX
              - sampleContainer.left - 12
      ∧ px.top + px.height / 2
          = ({ clientX := 512, clientY := 562 } : MouseEvent).clientY
              - sampleContainer.top - 12
      ∧ (({ clientX := 512, clientY := 562 } : MouseEvent).clientX
            = sampleContainer.left + sampleContainer.width / 2 →
          ({ clientX := 512, clientY := 562 } : MouseEvent).clientY
            = sampleContainer.top + sampleContainer.height / 2 →
          nf.coordinate.xRel + nf.coordinate.wRel / 2 = 1 / 2
          ∧ nf.coordinate.yRel + nf.coordinate.hRel / 2 = 1 / 2) :=
  C15_drop_offset initialState sampleContainer { clientX := 512, clientY := 562 } "f1" "text"
    (by norm_num [sampleContainer]) (by norm_num [sampleContainer])

/-- C16. DraggableBox follows the pointer by its delta: from box position `pos0`,
after pointer-down at `p0` and any pointer moves or prop changes, a pointer move at
`p1` sets the position to `pos0 + (p1 - p0)` and calls `onMove` with exactly that
position, as did every earlier move with its own pointer position; a pointer move
while not dragging, before any pointer-down or after a pointer-up, changes no state
and does not call `onMove`. -/
theorem C16_box_follows_pointer (s : BoxState) (p0 p1 e : MouseEvent)
    (evs : List BoxEvent) (left top : ℚ) :
    handlePointerMove p1 (boxRun (handlePointerDown p0 s) evs).1
        = ({ (boxRun (handlePointerDown p0 s) evs).1 with
             pos := { left := s.pos.left + (p1.clientX - p0.clientX)
                      top := s.pos.top + (p1.clientY - p0.clientY) } },
           some { left := s.pos.left + (p1.clientX - p0.clientX)
                  top := s.pos.top + (p1.clientY - p0.clientY) })
    ∧ (boxRun (handlePointerDown p0 s) evs).2
        = evs.filterMap (fun ev =>
            match ev with
            | .pointerMove m =>
              some { left := s.pos.left + (m.clientX - p0.clientX)
                     top := s.pos.top + (m.clientY - p0.clientY) }
            | .propsChanged _ _ => none)
    ∧ handlePointerMove e (initialBox left top) = (initialBox left top, none)
    ∧ handlePointerMove e (handlePointerUp s) = (handlePointerUp s, none)
    ∧ handlePointerMove e { s with dragging := false } = ({ s with dragging := false }, none) := by
  obtain ⟨hdrag, hstart, hcalls⟩ := boxRun_dragging evs (handlePointerDown p0 s) rfl
  have hx : ∀ m : MouseEvent, m.clientX - (p0.clientX - s.pos.left)
      = s.pos.left + (m.clientX - p0.clientX) := by
    intro m
    ring
  have hy : ∀ m : MouseEvent, m.clientY - (p0.clientY - s.pos.top)
      = s.pos.top + (m.clientY - p0.clientY) := by
    intro m
    ring
  have hstart2 : (boxRun (handlePointerDown p0 s) evs).1.start
      = { x := p0.clientX - s.pos.left, y := p0.clientY - s.pos.top } := hstart
  refine ⟨?_, ?_, rfl, rfl, rfl⟩
  · generalize (boxRun (handlePointerDown p0 s) evs).1 = sm at hdrag hstart2
    simp only [handlePointerMove, hdrag, hstart2, Bool.not_true, Bool.false_eq_true,
      if_false, hx, hy]
  · rw [hcalls]
    simp only [handlePointerDown, hx, hy]

/-- C13. Update merges and frames: `updateFieldValue`, `updateFieldChecked` and the
coordinate write-back each turn the field list, position by position, into a list of
the same length and order in which every field with the given id has only the named
attribute replaced and every other field is unchanged; the rest of the state is
unchanged; when no field has the id the field list is unchanged.  A pointer move that
returns normally changes nothing but coordinates, and only of fields the recorded
sessions refer to. -/
theorem C13_update_frames (s : AppState) (id value : String) (checked : Bool)
    (n : NormalizedRect) :
    List.Forall₂ (fun f g => g = if f.id = id then { f with value := value } else f)
        s.fields (updateFieldValue id value s).fields
    ∧ List.Forall₂ (fun f g => g = if f.id = id then { f with checked := checked } else f)
        s.fields (updateFieldChecked id checked s).fields
    ∧ List.Forall₂ (fun f g => g = if f.id = id then { f with coordinate := n } else f)
        s.fields (writeCoordinate id n s.fields)
    ∧ updateFieldValue id value s = { s with fields := (updateFieldValue id value s).fields }
    ∧ updateFieldChecked id checked s
        = { s with fields := (updateFieldChecked id checked s).fields }
    ∧ ((∀ f ∈ s.fields, f.id ≠ id) →
        updateFieldValue id value s = s ∧ updateFieldChecked id checked s = s
        ∧ writeCoordinate id n s.fields = s.fields)
    ∧ (∀ (e : MouseEvent) (s1 : AppState), handleMouseMove e s = .ok s1 →
        List.Forall₂ (coordinateOnly (sessionIds s)) s.fields s1.fields
        ∧ s1 = { s with fields := s1.fields }) := by
  refine ⟨forall₂_map_of_forall _ _ (fun _ => rfl), forall₂_map_of_forall _ _ (fun _ => rfl),
    forall₂_map_of_forall _ _ (fun _ => rfl), rfl, rfl, ?_, ?_⟩
  · intro habs
    refine ⟨?_, ?_, writeCoordinate_of_absent id n s.fields habs⟩
    · show ({ s with fields := s.fields.map _ } : AppState) = s
      rw [map_eq_self_of_forall _ _ (fun f hf => if_neg (habs f hf))]
    · show ({ s with fields := s.fields.map _ } : AppState) = s
      rw [map_eq_self_of_forall _ _ (fun f hf => if_neg (habs f hf))]
  · intro e s1 h
    obtain ⟨u, hs1, hu⟩ := handleMouseMove_frame e s s1 h
    subst hs1
    exact ⟨forall₂_map_of_forall u _ hu, rfl⟩

/-- C13 on the two sample fields: updating the value of `b` changes only that value,
and updating under an id no field carries changes nothing. -/
theorem C13_update_frames_witness :
    (updateFieldValue "b" "Ada" twoFieldsIdle).fields
        = [sampleFieldA, { sampleFieldB with value := "Ada" }]
    ∧ updateFieldValue "zz" "Ada" twoFieldsIdle = twoFieldsIdle := by
  have hab : ("a" : String) ≠ "b" := by decide
  have haz : ("a" : String) ≠ "zz" := by decide
  have hbz : ("b" : String) ≠ "zz" := by decide
  have h := C13_update_frames twoFieldsIdle "zz" "Ada" true
    { xRel := 0, yRel := 0, wRel := 0, hRel := 0 }
  refine ⟨?_, (h.2.2.2.2.2.1 ?_).1⟩
  · simp [updateFieldValue, twoFieldsIdle, sampleFieldA, sampleFieldB, hab]
  · intro f hf
    simp only [twoFieldsIdle, List.mem_cons, List.mem_singleton, List.not_mem_nil,
      or_false] at hf
    rcases hf with hf | hf
    · rw [hf]
      exact haz
    · rw [hf]
      exact hbz

/-- C14 (as stated, refuted). From the initial state, an upload of `doc.pdf` whose
request succeeds sets `isLoadingPdf` before dispatching and ends with the flag still
set: the success path of `handlePdfFileChange` never clears it. -/
theorem C14_upload_flag_counterexample :
    handlePdfFileChange (some "doc.pdf")
        (.resolved (some { pdfId := "p1", pdfUrl := "/uploads/p1.pdf" }))
      = [ Effect.setIsLoadingPdf true, Effect.postUploadPdf "doc.pdf",
          Effect.setPdfMeta { pdfId := some "p1",
                              url := some (BACKEND_BASE_URL ++ "/uploads/p1.pdf") },
          Effect.setFields [], Effect.setCurrentPage 1 ]
    ∧ (applyEffects initialShell
        (handlePdfFileChange (some "doc.pdf")
          (.resolved (some { pdfId := "p1", pdfUrl := "/uploads/p1.pdf" })))).isLoadingPdf
      = true :=
  ⟨rfl, rfl⟩

/-- C14 (amended). Sign request: whatever the outcome, `isSigning` is clear when
`handleSignDocument` has finished, and if the request is dispatched the flag is set
at that moment.  Upload request: `handlePdfFileChange` sets `isLoadingPdf` and then
dispatches; when the request fails (rejected, or answered without a body) the flag is
clear when the handler has finished; when the request succeeds the handler leaves the
flag set, and `handleDocumentLoadSuccess` clears it once the document has loaded.
Without a chosen file the upload handler does nothing. -/
theorem C14_busy_flags (s : ShellState) (file : String)
    (upload : Settled (Option UploadData)) (data : UploadData)
    (base64 : Settled String) (response : Settled (Option SignData)) (numPages : ℕ) :
    (applyEffects s (handleSignDocument s base64 response)).isSigning = false
    ∧ (∀ (pre rest : List Effect) (pdfId b64 : String) (payload : List PayloadField),
        handleSignDocument s base64 response
          = pre ++ Effect.postSignPdf pdfId b64 payload :: rest →
        (applyEffects s pre).isSigning = true)
    ∧ (handlePdfFileChange (some file) upload).take 2
        = [Effect.setIsLoadingPdf true, Effect.postUploadPdf file]
    ∧ (applyEffects s [Effect.setIsLoadingPdf true]).isLoadingPdf = true
    ∧ (applyEffects s (handlePdfFileChange (some file) .rejected)).isLoadingPdf = false
    ∧ (applyEffects s (handlePdfFileChange (some file) (.resolved none))).isLoadingPdf = false
    ∧ (applyEffects s
        (handlePdfFileChange (some file) (.resolved (some data)))).isLoadingPdf = true
    ∧ (handleDocumentLoadSuccess numPages
        (applyEffects s
          (handlePdfFileChange (some file) (.resolved (some data))))).isLoadingPdf = false
    ∧ handlePdfFileChange none upload = [] := by
  obtain ⟨msg, hs⟩ | ⟨sig, hs⟩ | ⟨sig, pdfId, b, tail, hs, htail⟩ :=
    handleSignDocument_shape s base64 response
  · refine ⟨by rw [hs]; rfl, ?_, rfl, rfl, rfl, rfl, rfl, rfl, rfl⟩
    intro pre rest pdfId0 b64 payload heq
    have hmem : Effect.postSignPdf pdfId0 b64 payload
        ∈ [Effect.alert msg, Effect.setIsSigning false] := by
      rw [← hs, heq]
      simp
    simp at hmem
  · refine ⟨by rw [hs]; rfl, ?_, rfl, rfl, rfl, rfl, rfl, rfl, rfl⟩
    intro pre rest pdfId0 b64 payload heq
    have hmem : Effect.postSignPdf pdfId0 b64 payload
        ∈ [Effect.setIsSigning true, Effect.readSignatureFile sig] ++ signCatchFinally := by
      rw [← hs, heq]
      simp
    simp [signCatchFinally] at hmem
  · have hnot : ∀ (pdfId0 b64 : String) (payload : List PayloadField),
        Effect.postSignPdf pdfId0 b64 payload ∉ tail := by
      intro pdfId0 b64 payload hmem
      rcases htail with htail | ⟨url, htail⟩
      · rw [htail] at hmem
        simp [signCatchFinally] at hmem
      · rw [htail] at hmem
        simp at hmem
    refine ⟨?_, ?_, rfl, rfl, rfl, rfl, rfl, rfl, rfl⟩
    · rw [hs]
      rcases htail with htail | ⟨url, htail⟩ <;> rw [htail] <;> rfl
    · intro pre rest pdfId0 b64 payload heq
      rw [hs] at heq
      rcases pre with _ | ⟨x, _ | ⟨y, _ | ⟨z, pre3⟩⟩⟩
      · simp at heq
      · simp at heq
      · simp only [List.cons_append, List.nil_append, List.cons.injEq] at heq
        obtain ⟨hx, hy, -⟩ := heq
        rw [← hx, ← hy]
        rfl
      · simp only [List.cons_append, List.nil_append, List.cons.injEq] at heq
        obtain ⟨-, -, -, ht⟩ := heq
        exact absurd (by rw [ht]; simp) (hnot pdfId0 b64 payload)

/-- C14 (amended) at the state ready to sign: a sign request that is rejected leaves
`isSigning` clear, and an upload request that is rejected leaves `isLoadingPdf` clear. -/
theorem C14_busy_flags_witness :
    (applyEffects readyToSign
        (handleSignDocument readyToSign (.resolved "aGVsbG8=") .rejected)).isSigning = false
    ∧ (applyEffects readyToSign
        (handlePdfFileChange (some "doc.pdf") .rejected)).isLoadingPdf = false :=
  ⟨(C14_busy_flags readyToSign "doc.pdf" .rejected
      { pdfId := "p1", pdfUrl := "/uploads/p1.pdf" } (.resolved "aGVsbG8=") .rejected 1).1,
   (C14_busy_flags readyToSign "doc.pdf" .rejected
      { pdfId := "p1", pdfUrl := "/uploads/p1.pdf" }
      (.resolved "aGVsbG8=") .rejected 1).2.2.2.2.1⟩

end SignatureEngine
